import Mathlib

/-!
# Parameter validation helpers of `realm-jni/src/util.hpp`

A shallow embedding of the handle / index / type validators, of `KeyBuffer`, of the
exception translation macros and of the small conversion helpers of `util.hpp`, and of
the list helpers of `tightdb_jni/src/java_lang_List_Util.cpp`.

Modelling conventions

* `jlong` is `Int` (the comparisons of the validators are exact on the values,
  so no wrap-around occurs on them); `size_t` is a 64-bit unsigned integer,
  a `Nat` below `SIZE_MOD`, and every `size_t` operation that can overflow is
  written with an explicit `% SIZE_MOD`.
* A pointer is an `Option`: `none` is `NULL`.
* The `JNIEnv*` argument is the ordered trace of what the code did to the
  outside world: every `ThrowException` call and every call of an accessor of
  the native engine.  A validator is a function from the trace before the call
  to `Option (result × trace after the call)`; `none` stands for undefined
  behaviour (dereferencing `NULL`, calling an accessor other than
  `is_attached` on a detached object, or indexing outside the table).
* `TR_ERR` (debug printing) is left out: it neither throws nor changes a result.
-/

namespace RealmJni

/-! ## Machine integers -/

/-- Number of values of `size_t` (64-bit). -/
def SIZE_MOD : Nat := 2 ^ 64

/-- The macro `MAX_JLONG`. -/
def MAX_JLONG : Int := 0x7FFFFFFFFFFFFFFF

/-- The macro `MIN_JLONG`, written `-0x8000000000000000LL`: the literal does not fit a
`long long`, so it is an `unsigned long long`, and negating it wraps around to `2 ^ 63`. -/
def MIN_JLONG : Nat := (2 ^ 64 - 0x8000000000000000) % 2 ^ 64

/-- The macro `S(x)`, `static_cast<size_t>(x)` of a `jlong`. -/
def S (x : Int) : Nat := (x % (SIZE_MOD : Int)).toNat

/-- Conversion of a `size_t` to `jlong` (two's complement), as done by the
assignment `endIndex = maxIndex` and by `jlong(res)`. -/
def jlong_of_size_t (n : Nat) : Int :=
  if n % SIZE_MOD < 2 ^ 63 then ((n % SIZE_MOD : Nat) : Int)
  else ((n % SIZE_MOD : Nat) : Int) - (SIZE_MOD : Int)

/-- The helper `tightdb::util::int_greater_than(a, b)` of `safe_int_ops.hpp` with a
signed left and an unsigned right operand: comparison of the values. -/
def int_greater_than (a : Int) (b : Nat) : Bool := decide ((b : Int) < a)

/-- The helper `tightdb::util::int_greater_than_or_equal(a, b)` of `safe_int_ops.hpp`
with a signed left and an unsigned right operand: comparison of the values. -/
def int_greater_than_or_equal (a : Int) (b : Nat) : Bool := decide ((b : Int) ≤ a)

/-! ## Exceptions, trace, native objects -/

/-- The enum `ExceptionKind`. -/
inductive ExceptionKind
  | ClassNotFound
  | NoSuchField
  | NoSuchMethod
  | IllegalArgument
  | IOFailed
  | FileNotFound
  | FileAccessError
  | IndexOutOfBounds
  | TableInvalid
  | UnsupportedOperation
  | OutOfMemory
  | Unspecified
  | RuntimeError
  | RowInvalid
  deriving DecidableEq, Repr

/-- The numeric value of an `ExceptionKind` enumerator. -/
def ExceptionKind.code : ExceptionKind → Nat
  | .ClassNotFound => 0
  | .NoSuchField => 1
  | .NoSuchMethod => 2
  | .IllegalArgument => 3
  | .IOFailed => 4
  | .FileNotFound => 5
  | .FileAccessError => 6
  | .IndexOutOfBounds => 7
  | .TableInvalid => 8
  | .UnsupportedOperation => 9
  | .OutOfMemory => 10
  | .Unspecified => 11
  | .RuntimeError => 12
  | .RowInvalid => 13

/-- Accessor calls on native objects. -/
inductive Query
  | is_attached
  | size
  | get_column_count
  | get_column_type (col : Nat)
  | get_mixed_type (col row : Nat)
  | row_is_attached
  | row_get_table
  deriving DecidableEq, Repr

/-- JNI calls on a byte array made by `KeyBuffer`. -/
inductive ArrayCall
  | GetArrayLength
  | GetByteArrayElements
  | ReleaseByteArrayElements (abort : Bool)
  deriving DecidableEq, Repr

/-- JNI calls on a Java object made by the list helpers. -/
inductive ObjectCall
  | GetObjectClass
  | GetMethodID (name sig : String)
  | CallIntMethod (methodID : Nat)
  | CallObjectMethod (methodID : Nat) (index : Int)
  deriving DecidableEq, Repr

/-- One observable action of the code. -/
inductive Event
  | thrown (kind : ExceptionKind) (classStr itemStr : String)
  | native (q : Query)
  | array (c : ArrayCall)
  | object (c : ObjectCall)
  | assertion (condition : Bool)
  deriving DecidableEq, Repr

/-- The environment: the actions performed so far, oldest first. -/
abbrev JNIEnv := List Event

/-- The kinds of the exceptions raised in a trace, oldest first. -/
def raised (env : JNIEnv) : List ExceptionKind :=
  env.filterMap fun ev =>
    match ev with
    | .thrown k _ _ => some k
    | _ => none

/-- The accessor calls of a trace, oldest first. -/
def queried (env : JNIEnv) : List Query :=
  env.filterMap fun ev =>
    match ev with
    | .native q => some q
    | _ => none

/-- The C++ types a handle is cast to (`TBL`, `TV`, `LV`, `Q`, `G`, `ROW`). -/
inductive NativeType
  | Table
  | TableView
  | LinkView
  | Query
  | Group
  | Row
  deriving DecidableEq, Repr

/-- The compile-time constant `tightdb::util::SameType<A, B>::value`. -/
def SameType (A B : NativeType) : Bool := decide (A = B)

/-- A table-like native object (table or view) as the validators see it. -/
structure TableObj where
  attached : Bool
  rows : Nat
  column_types : List Int
  mixed_types : Nat → Nat → Int

/-- A row accessor. -/
structure RowObj where
  attached : Bool
  table : Option TableObj

/-- A computation on the environment; `none` is undefined behaviour. -/
def Check (α : Type) : Type := JNIEnv → Option (α × JNIEnv)

/-- Sequencing of computations. -/
def Check.bind {α β : Type} (m : Check α) (f : α → Check β) : Check β :=
  fun env =>
    match m env with
    | none => none
    | some (a, env1) => f a env1

instance : Monad Check where
  pure a := fun env => some (a, env)
  bind := Check.bind

/-- The declared `ThrowException(env, exception, classStr, itemStr)`: recorded as a call. -/
def ThrowException (exception : ExceptionKind) (classStr : String) (itemStr : String) :
    Check Unit :=
  fun env => some ((), env ++ [Event.thrown exception classStr itemStr])

/-- An accessor call on a table-like pointer that needs a live object. -/
def onTable {α : Type} (p : Option TableObj) (q : Query) (f : TableObj → Option α) : Check α :=
  fun env =>
    match p with
    | none => none
    | some t =>
      if t.attached then
        match f t with
        | none => none
        | some a => some (a, env ++ [Event.native q])
      else none

/-- The accessor `p->is_attached()` of a table. -/
def is_attached (p : Option TableObj) : Check Bool :=
  fun env =>
    match p with
    | none => none
    | some t => some (t.attached, env ++ [Event.native Query.is_attached])

/-- The accessor `p->size()`. -/
def size (p : Option TableObj) : Check Nat :=
  onTable p Query.size fun t => some t.rows

/-- The accessor `p->get_column_count()`. -/
def get_column_count (p : Option TableObj) : Check Nat :=
  onTable p Query.get_column_count fun t => some t.column_types.length

/-- The accessor `p->get_column_type(col)`. -/
def get_column_type (p : Option TableObj) (col : Nat) : Check Int :=
  onTable p (Query.get_column_type col) fun t => t.column_types[col]?

/-- The accessor `p->get_mixed_type(col, row)`. -/
def get_mixed_type (p : Option TableObj) (col row : Nat) : Check Int :=
  onTable p (Query.get_mixed_type col row) fun t =>
    if col < t.column_types.length ∧ row < t.rows then some (t.mixed_types col row) else none

/-- The accessor `rowPtr->is_attached()` of a row. -/
def row_is_attached (p : Option RowObj) : Check Bool :=
  fun env =>
    match p with
    | none => none
    | some r => some (r.attached, env ++ [Event.native Query.row_is_attached])

/-- The accessor `pRow->get_table()`. -/
def row_get_table (p : Option RowObj) : Check (Option TableObj) :=
  fun env =>
    match p with
    | none => none
    | some r =>
      if r.attached then some (r.table, env ++ [Event.native Query.row_get_table]) else none

/-- A table object that fits the machine: sizes are `size_t` values. -/
def TableObj.wf (t : TableObj) : Prop :=
  t.rows < SIZE_MOD ∧ t.column_types.length < SIZE_MOD

instance (t : TableObj) : Decidable t.wf := by
  unfold TableObj.wf
  exact inferInstance

/-! ## The validators -/

/-- The C++ `a && b` on checks: `b` runs only when `a` gave true. -/
def andAlso (a b : Check Bool) : Check Bool := do
  if (← a) then b else pure false

/-- The template `TableIsValid<T>(env, objPtr)`. -/
def TableIsValid (T : NativeType) (objPtr : Option TableObj) : Check Bool := do
  let mut valid := objPtr.isSome
  if valid then
    if SameType NativeType.Table T then
      valid ← is_attached objPtr
  if !valid then
    ThrowException .TableInvalid "Table is no longer valid to operate on." ""
  return valid

/-- The function `RowIsValid(env, rowPtr)`. -/
def RowIsValid (rowPtr : Option RowObj) : Check Bool := do
  let valid ← andAlso (pure rowPtr.isSome) (row_is_attached rowPtr)
  if !valid then
    ThrowException .RowInvalid "Row/Object is no longer valid to operate on. Was it deleted?" ""
  return valid

/-- The value of `endIndex` after `if (endIndex == -1) endIndex = maxIndex;`. -/
def resolveEnd (maxIndex : Nat) (endIndex : Int) : Int :=
  if endIndex = -1 then jlong_of_size_t maxIndex else endIndex

/-- The template `RowIndexesValid(env, pTable, startIndex, endIndex, range)`. -/
def RowIndexesValid (pTable : Option TableObj) (startIndex endIndex range : Int) :
    Check Bool := do
  let maxIndex ← size pTable
  let endIndex := resolveEnd maxIndex endIndex
  if startIndex < 0 then
    ThrowException .IndexOutOfBounds "startIndex < 0." ""
    return false
  if int_greater_than startIndex maxIndex then
    ThrowException .IndexOutOfBounds "startIndex > available rows." ""
    return false
  if int_greater_than endIndex maxIndex then
    ThrowException .IndexOutOfBounds "endIndex > available rows." ""
    return false
  if startIndex > endIndex then
    ThrowException .IndexOutOfBounds "startIndex > endIndex." ""
    return false
  if range ≠ -1 ∧ range < 0 then
    ThrowException .IndexOutOfBounds "range < 0." ""
    return false
  return true

/-- The template `RowIndexValid(env, pTable, rowIndex, offset)`. -/
def RowIndexValid (pTable : Option TableObj) (rowIndex : Int) (offset : Bool) : Check Bool := do
  if rowIndex < 0 then
    ThrowException .IndexOutOfBounds "rowIndex is less than 0." ""
    return false
  let mut size ← size pTable
  if size > 0 ∧ offset then
    size := size - 1
  let rowErr := int_greater_than_or_equal rowIndex size
  if rowErr then
    ThrowException .IndexOutOfBounds "rowIndex > available rows." ""
  return !rowErr

/-- The template `TblRowIndexValid<T>(env, pTable, rowIndex, offset)`. -/
def TblRowIndexValid (T : NativeType) (pTable : Option TableObj) (rowIndex : Int)
    (offset : Bool) : Check Bool := do
  if SameType NativeType.Table T then
    if !(← TableIsValid NativeType.Table pTable) then
      return false
  RowIndexValid pTable rowIndex offset

/-- The template `ColIndexValid(env, pTable, columnIndex)`. -/
def ColIndexValid (pTable : Option TableObj) (columnIndex : Int) : Check Bool := do
  if columnIndex < 0 then
    ThrowException .IndexOutOfBounds "columnIndex is less than 0." ""
    return false
  let colErr := int_greater_than_or_equal columnIndex (← get_column_count pTable)
  if colErr then
    ThrowException .IndexOutOfBounds "columnIndex > available columns." ""
  return !colErr

/-- The template `TblColIndexValid<T>(env, pTable, columnIndex)`. -/
def TblColIndexValid (T : NativeType) (pTable : Option TableObj) (columnIndex : Int) :
    Check Bool := do
  if SameType NativeType.Table T then
    if !(← TableIsValid NativeType.Table pTable) then
      return false
  ColIndexValid pTable columnIndex

/-- The function `RowColIndexValid(env, pRow, columnIndex)`. -/
def RowColIndexValid (pRow : Option RowObj) (columnIndex : Int) : Check Bool :=
  andAlso (RowIsValid pRow) (do ColIndexValid (← row_get_table pRow) columnIndex)

/-- The template `IndexValid(env, pTable, columnIndex, rowIndex)`. -/
def IndexValid (pTable : Option TableObj) (columnIndex rowIndex : Int) : Check Bool :=
  andAlso (ColIndexValid pTable columnIndex) (RowIndexValid pTable rowIndex false)

/-- The template `TblIndexValid<T>(env, pTable, columnIndex, rowIndex)`. -/
def TblIndexValid (T : NativeType) (pTable : Option TableObj) (columnIndex rowIndex : Int) :
    Check Bool :=
  andAlso (TableIsValid T pTable) (IndexValid pTable columnIndex rowIndex)

/-- The template `num_to_string`: the decimal text of a number. -/
def num_to_string (pNumber : Int) : String := toString pNumber

/-- The template `TblIndexInsertValid<T>(env, pTable, columnIndex, rowIndex)`. -/
def TblIndexInsertValid (T : NativeType) (pTable : Option TableObj)
    (columnIndex rowIndex : Int) : Check Bool := do
  if !(← TblColIndexValid T pTable columnIndex) then
    return false
  let rowErr := int_greater_than rowIndex (((← size pTable) + 1) % SIZE_MOD)
  if rowErr then
    ThrowException .IndexOutOfBounds
      ("rowIndex " ++ num_to_string rowIndex ++
        " > available rows " ++ num_to_string ((← size pTable) : Nat) ++ ".") ""
  return !rowErr

section TypeChecks

-- The enumerator `tightdb::type_Mixed` of the engine; its value is not fixed by the sources
-- at hand, so it is a parameter of the type checks.
variable (type_Mixed : Int)

/-- The template `TypeValid(env, pTable, columnIndex, rowIndex, expectColType, allowMixed)`. -/
def TypeValid (pTable : Option TableObj) (columnIndex rowIndex : Int) (expectColType : Int)
    (allowMixed : Bool) : Check Bool := do
  let col := S columnIndex
  let mut colType ← get_column_type pTable col
  if allowMixed then
    if colType = type_Mixed then
      let row := S rowIndex
      colType ← get_mixed_type pTable col row
  if colType ≠ expectColType then
    ThrowException .IllegalArgument "ColumnType invalid." ""
    return false
  return true

/-- The template `ColIndexAndTypeValid(env, pTable, columnIndex, expectColType)`. -/
def ColIndexAndTypeValid (pTable : Option TableObj) (columnIndex : Int)
    (expectColType : Int) : Check Bool :=
  andAlso (ColIndexValid pTable columnIndex)
    (TypeValid type_Mixed pTable columnIndex 0 expectColType false)

/-- The template `TblColIndexAndTypeValid<T>(env, pTable, columnIndex, expectColType)`. -/
def TblColIndexAndTypeValid (T : NativeType) (pTable : Option TableObj) (columnIndex : Int)
    (expectColType : Int) : Check Bool :=
  andAlso (TableIsValid T pTable)
    (ColIndexAndTypeValid type_Mixed pTable columnIndex expectColType)

/-- The function `RowColIndexAndTypeValid(env, pRow, columnIndex, expectColType)`. -/
def RowColIndexAndTypeValid (pRow : Option RowObj) (columnIndex : Int)
    (expectColType : Int) : Check Bool :=
  andAlso (RowIsValid pRow)
    (do ColIndexAndTypeValid type_Mixed (← row_get_table pRow) columnIndex expectColType)

/-- The template `IndexAndTypeValid(env, pTable, columnIndex, rowIndex, expectColType,
allowMixed)`. -/
def IndexAndTypeValid (pTable : Option TableObj) (columnIndex rowIndex : Int)
    (expectColType : Int) (allowMixed : Bool) : Check Bool :=
  andAlso (IndexValid pTable columnIndex rowIndex)
    (TypeValid type_Mixed pTable columnIndex rowIndex expectColType allowMixed)

/-- The template `TblIndexAndTypeValid<T>(env, pTable, columnIndex, rowIndex, expectColType,
allowMixed)`. -/
def TblIndexAndTypeValid (T : NativeType) (pTable : Option TableObj)
    (columnIndex rowIndex : Int) (expectColType : Int) (allowMixed : Bool) : Check Bool :=
  andAlso (TableIsValid T pTable)
    (IndexAndTypeValid type_Mixed pTable columnIndex rowIndex expectColType allowMixed)

/-- The template `TblIndexAndTypeInsertValid<T>(env, pTable, columnIndex, rowIndex,
expectColType)`. -/
def TblIndexAndTypeInsertValid (T : NativeType) (pTable : Option TableObj)
    (columnIndex rowIndex : Int) (expectColType : Int) : Check Bool :=
  andAlso (TblIndexInsertValid T pTable columnIndex rowIndex)
    (TypeValid type_Mixed pTable columnIndex rowIndex expectColType false)

end TypeChecks

/-! ## KeyBuffer -/

/-- A Java byte array: its bytes, and whether `GetByteArrayElements` can hand them out
(the call returns `NULL` when it cannot).  A Java array has at most `MAX_JSIZE` elements,
so its length is a `jsize` as it stands. -/
structure JByteArray where
  bytes : List Nat
  obtainable : Bool
  deriving DecidableEq, Repr

/-- The JNI call `env->GetArrayLength(arr)`. -/
def GetArrayLength (arr : Option JByteArray) : Check Int :=
  fun env =>
    match arr with
    | none => none
    | some a => some ((a.bytes.length : Int), env ++ [Event.array ArrayCall.GetArrayLength])

/-- The JNI call `env->GetByteArrayElements(arr, NULL)`. -/
def GetByteArrayElements (arr : Option JByteArray) : Check (Option (List Nat)) :=
  fun env =>
    match arr with
    | none => none
    | some a =>
      some (if a.obtainable then some a.bytes else none,
        env ++ [Event.array ArrayCall.GetByteArrayElements])

/-- The JNI call `env->ReleaseByteArrayElements(arr, ptr, mode)`; `abort` says whether the
mode is `JNI_ABORT`. -/
def ReleaseByteArrayElements (abort : Bool) : Check Unit :=
  fun env => some ((), env ++ [Event.array (ArrayCall.ReleaseByteArrayElements abort)])

/-- The data members of `KeyBuffer` (`m_env` is the environment that is passed along). -/
structure KeyBuffer where
  m_array : Option JByteArray
  m_ptr : Option (List Nat)
  deriving DecidableEq, Repr

/-- The constructor `KeyBuffer::KeyBuffer(env, arr)`; the flag says whether
`TIGHTDB_ENABLE_ENCRYPTION` is defined. -/
def KeyBuffer.construct (TIGHTDB_ENABLE_ENCRYPTION : Bool) (arr : Option JByteArray) :
    Check KeyBuffer := do
  let mut m_ptr : Option (List Nat) := none
  if TIGHTDB_ENABLE_ENCRYPTION then
    if arr.isSome then
      if (← GetArrayLength arr) ≠ 32 then
        ThrowException .UnsupportedOperation "Encryption key must be exactly 32 bytes." ""
      m_ptr ← GetByteArrayElements arr
  else
    if arr.isSome then
      ThrowException .UnsupportedOperation
        "Encryption was disabled in the native library at compile time." ""
  return { m_array := arr, m_ptr := m_ptr }

/-- The member `KeyBuffer::data()`. -/
def KeyBuffer.data (k : KeyBuffer) : Option (List Nat) := k.m_ptr

/-- The destructor `KeyBuffer::~KeyBuffer()`. -/
def KeyBuffer.destroy (k : KeyBuffer) : Check Unit := do
  if k.m_ptr.isSome then
    ReleaseByteArrayElements true

/-- The whole life of a `KeyBuffer` local of a native call: the constructor, then the
destructor at the end of the scope.  The result is what `data()` gave in between. -/
def KeyBuffer.lifetime (TIGHTDB_ENABLE_ENCRYPTION : Bool) (arr : Option JByteArray) :
    Check (Option (List Nat)) := do
  let k ← KeyBuffer.construct TIGHTDB_ENABLE_ENCRYPTION arr
  let d := k.data
  k.destroy
  return d

/-! ## Conversion of search results -/

/-- Modelled from the spec: the constant `tightdb::not_found` of the engine (its declaration
is not among the sources), the sentinel of a failed search: the maximum `size_t` value. -/
def not_found : Nat := SIZE_MOD - 1

/-- The function `to_jlong_or_not_found(res)`. -/
def to_jlong_or_not_found (res : Nat) : Int :=
  if res = not_found then -1 else jlong_of_size_t res

/-! ## Exception translation -/

/-- The classes of thrown objects that the handlers of `CATCH_FILE` and `CATCH_STD` tell
apart; `foreign` stands for an object that is no `std::exception` at all. -/
inductive NativeClass
  | InvalidDatabase
  | PermissionDenied
  | NotFound
  | AccessError
  | bad_alloc
  | std_exception
  | foreign
  deriving DecidableEq, Repr

/-- Modelled from the spec: the direct base class in the exception hierarchy of the engine
and of the C++ library (their declarations are not among the sources): permission denied and
not found derive from the generic file access error; that one, an allocation failure and
every other failure of the known hierarchy derive from the standard exception base.  The
invalid database failure is placed under the file access error; its handler comes first, so
its place has no influence on the translation. -/
def NativeClass.base : NativeClass → Option NativeClass
  | .InvalidDatabase => some .AccessError
  | .PermissionDenied => some .AccessError
  | .NotFound => some .AccessError
  | .AccessError => some .std_exception
  | .bad_alloc => some .std_exception
  | .std_exception => none
  | .foreign => none

/-- Whether a handler `catch (H&)` takes an object of class `c`: `c` is `H` or derives from
it (the hierarchy is two levels deep). -/
def NativeClass.isA (c h : NativeClass) : Bool :=
  decide (c = h) ||
    match c.base with
    | none => false
    | some b =>
      decide (b = h) ||
        match b.base with
        | none => false
        | some b2 => decide (b2 = h)

/-- A thrown native object: its class and the text of `what()`. -/
structure NativeFailure where
  cls : NativeClass
  what : String
  deriving DecidableEq, Repr

/-- Modelled from the spec: the macro `TIGHTDB_ASSERT` of the engine (not among the
sources): a violated assertion is logged and the call goes on. -/
def TIGHTDB_ASSERT (condition : Bool) : Check Unit :=
  fun env => some ((), if condition then env else env ++ [Event.assertion condition])

/-- The macro `STRINGIZE(__LINE__)`: the decimal text of the line number. -/
def STRINGIZE (x : Nat) : String := toString x

/-- The handlers of the macro `CATCH_FILE(fileName)`, tried in order on a thrown object;
`none` when no handler takes it. -/
def CATCH_FILE (fileName : String) (e : NativeFailure) : Option (Check Unit) :=
  if e.cls.isA .InvalidDatabase then
    some (ThrowException .IllegalArgument "Invalid Group file format." "")
  else if e.cls.isA .PermissionDenied then
    some (ThrowException .IOFailed fileName ("Permission denied. " ++ e.what))
  else if e.cls.isA .NotFound then
    some (ThrowException .FileNotFound fileName "")
  else if e.cls.isA .AccessError then
    some (ThrowException .FileAccessError fileName e.what)
  else none

/-- The handlers of the macro `CATCH_STD()`, tried in order on a thrown object; `FILE` and
`LINE` are `__FILE__` and `__LINE__` at the place of the macro. -/
def CATCH_STD (FILE : String) (LINE : Nat) (e : NativeFailure) : Check Unit :=
  if e.cls.isA .bad_alloc then
    ThrowException .OutOfMemory
      (e.what ++ " in " ++ FILE ++ " line " ++ STRINGIZE LINE) ""
  else if e.cls.isA .std_exception then
    ThrowException .Unspecified
      (e.what ++ " in " ++ FILE ++ " line " ++ STRINGIZE LINE) ""
  else do
    TIGHTDB_ASSERT false
    ThrowException .RuntimeError ("Exception in " ++ FILE ++ " line " ++ STRINGIZE LINE) ""

/-- A `try` block closed by `CATCH_FILE(fileName) CATCH_STD()` whose body throws `e`. -/
def translate (fileName FILE : String) (LINE : Nat) (e : NativeFailure) : Check Unit :=
  match CATCH_FILE fileName e with
  | some handler => handler
  | none => CATCH_STD FILE LINE e

/-! ## List helpers (`java_lang_List_Util.cpp`) -/

/-- A Java class as `GetMethodID` sees it: the method id for a name and a signature, or
`NULL`. -/
structure JClass where
  methodID : String → String → Option Nat

/-- A Java list object as the helpers see it: its class (or `NULL` when it cannot be
obtained) and what calling a method on it gives. -/
structure JList where
  objectClass : Option JClass
  intMethod : Nat → Int
  objectMethod : Nat → Int → Option Nat

/-- The JNI call `env->GetObjectClass(jList)`. -/
def GetObjectClass (jList : JList) : Check (Option JClass) :=
  fun env => some (jList.objectClass, env ++ [Event.object ObjectCall.GetObjectClass])

/-- The JNI call `env->GetMethodID(clazz, name, sig)`. -/
def GetMethodID (clazz : Option JClass) (name sig : String) : Check (Option Nat) :=
  fun env =>
    match clazz with
    | none => none
    | some c => some (c.methodID name sig, env ++ [Event.object (ObjectCall.GetMethodID name sig)])

/-- The JNI call `env->CallIntMethod(jList, methodID)`. -/
def CallIntMethod (jList : JList) (methodID : Option Nat) : Check Int :=
  fun env =>
    match methodID with
    | none => none
    | some m => some (jList.intMethod m, env ++ [Event.object (ObjectCall.CallIntMethod m)])

/-- The JNI call `env->CallObjectMethod(jList, methodID, index)`. -/
def CallObjectMethod (jList : JList) (methodID : Option Nat) (index : Int) :
    Check (Option Nat) :=
  fun env =>
    match methodID with
    | none => none
    | some m =>
      some (jList.objectMethod m index,
        env ++ [Event.object (ObjectCall.CallObjectMethod m index)])

/-- The function `java_lang_List_size(env, jList)`. -/
def java_lang_List_size (jList : JList) : Check Int := do
  let jListClass ← GetObjectClass jList
  if jListClass.isNone then
    return -1
  let jListSizeMethodId ← GetMethodID jListClass "size" "()I"
  if jListSizeMethodId.isNone then
    ThrowException .NoSuchMethod "jList" "size"
    return -1
  CallIntMethod jList jListSizeMethodId

/-- The function `java_lang_List_get(env, jList, index)`. -/
def java_lang_List_get (jList : JList) (index : Int) : Check (Option Nat) := do
  let jListClass ← GetObjectClass jList
  if jListClass.isNone then
    return none
  let jListGetMethodId ← GetMethodID jListClass "get" "(I)Ljava/lang/Object;"
  if jListGetMethodId.isNone then
    ThrowException .NoSuchMethod "jList" "get"
    return none
  CallObjectMethod jList jListGetMethodId index

/-! ## Conditions in the words of the specification -/

/-- The row range condition in the words of the specification: `0 <= start <= end1 <= size`
with `end1 = size` if `end == -1` else `end`, and `limit == -1 or limit >= 0`. -/
def rowRangeSpec (size : Nat) (start end0 limit : Int) : Prop :=
  (0 ≤ start ∧ start ≤ (if end0 = -1 then (size : Int) else end0) ∧
    (if end0 = -1 then (size : Int) else end0) ≤ (size : Int)) ∧
  (limit = -1 ∨ 0 ≤ limit)

instance (size : Nat) (start end0 limit : Int) : Decidable (rowRangeSpec size start end0 limit) := by
  unfold rowRangeSpec
  exact inferInstance

/-- The type that `TypeValid` compares with the expected one: the type stored at
`(col, row)` when mixed types are allowed and the column is declared mixed, and the declared
type of the column otherwise. -/
def resolvedType (type_Mixed : Int) (t : TableObj) (declared : Int) (col row : Nat)
    (allowMixed : Bool) : Int :=
  if allowMixed = true ∧ declared = type_Mixed then t.mixed_types col row else declared

/-- The accessor calls of `TypeValid`. -/
def typeQueries (type_Mixed : Int) (declared : Int) (col row : Nat) (allowMixed : Bool) :
    List Event :=
  if allowMixed = true ∧ declared = type_Mixed then
    [Event.native (Query.get_column_type col), Event.native (Query.get_mixed_type col row)]
  else [Event.native (Query.get_column_type col)]

/-- The kind that the specification assigns to a native failure of each class. -/
def translatedKind : NativeClass → ExceptionKind
  | .InvalidDatabase => .IllegalArgument
  | .PermissionDenied => .IOFailed
  | .NotFound => .FileNotFound
  | .AccessError => .FileAccessError
  | .bad_alloc => .OutOfMemory
  | .std_exception => .Unspecified
  | .foreign => .RuntimeError

/-- Whether the characters `sub` occur, in a row, somewhere in `s`. -/
def occursInList (sub : List Char) : List Char → Bool
  | [] => sub.isPrefixOf []
  | c :: cs => sub.isPrefixOf (c :: cs) || occursInList sub cs

/-- Whether the text `sub` occurs in the text `s`: a descriptive string carries `sub`. -/
def occursIn (sub s : String) : Bool := occursInList sub.data s.data

/-- The modes of the `ReleaseByteArrayElements` calls of a trace, oldest first: `true` for
`JNI_ABORT`. -/
def releases (env : JNIEnv) : List Bool :=
  env.filterMap fun ev =>
    match ev with
    | .array (.ReleaseByteArrayElements abort) => some abort
    | _ => none

/-- The number of `GetByteArrayElements` calls of a trace. -/
def acquisitions (env : JNIEnv) : Nat :=
  (env.filter fun ev => decide (ev = Event.array ArrayCall.GetByteArrayElements)).length

/-- The discipline of a validator: whenever it returns true the raised exceptions are those
from before the call, and whenever it returns false exactly one exception was added. -/
def Disciplined (m : Check Bool) : Prop :=
  ∀ env b env1, m env = some (b, env1) →
    (b = true → raised env1 = raised env) ∧
    (b = false → ∃ k, raised env1 = raised env ++ [k])

/-- A computation that raises nothing. -/
def Quiet {α : Type} (m : Check α) : Prop :=
  ∀ env a env1, m env = some (a, env1) → raised env1 = raised env

/-- A computation that returns from every environment (no undefined behaviour). -/
def Defined {α : Type} (m : Check α) : Prop :=
  ∀ env, ∃ a env1, m env = some (a, env1)

/-- Whether a type lookup is made inside the table, at the indices it was asked for: the
column type at `col` with `0 <= col < column_count`, the mixed type at `(col, row)` with, in
addition, `0 <= row < size`.  Other accessor calls are not constrained. -/
def Query.guarded (t : TableObj) (col row : Int) : Query → Bool
  | .get_column_type c =>
    decide ((c : Int) = col ∧ 0 ≤ col ∧ col < (t.column_types.length : Int))
  | .get_mixed_type c r =>
    decide (((c : Int) = col ∧ 0 ≤ col ∧ col < (t.column_types.length : Int)) ∧
      ((r : Int) = row ∧ 0 ≤ row ∧ row < (t.rows : Int)))
  | _ => true

/-- All type lookups of a trace are guarded. -/
def guardedTrace (t : TableObj) (col row : Int) (new : JNIEnv) : Prop :=
  ∀ q ∈ queried new, q.guarded t col row = true

/-- A check that returns from every environment, only adds to the trace, and makes guarded
type lookups only. -/
def GuardedRun (t : TableObj) (col row : Int) (m : Check Bool) : Prop :=
  ∀ env, ∃ b new, m env = some (b, env ++ new) ∧ guardedTrace t col row new

/-! ## Sample objects -/

/-- A sample attached table with three rows and two columns. -/
def sampleTable : TableObj :=
  { attached := true, rows := 3, column_types := [0, 6], mixed_types := fun _ _ => 2 }

/-- A table with `2 ^ 63` rows. -/
def hugeTable : TableObj :=
  { attached := true, rows := 2 ^ 63, column_types := [0], mixed_types := fun _ _ => 0 }

/-- An attached table without rows. -/
def emptyTable : TableObj :=
  { attached := true, rows := 0, column_types := [0], mixed_types := fun _ _ => 0 }

/-- A detached copy of the sample table. -/
def detachedTable : TableObj := { sampleTable with attached := false }

/-- An attached row of the sample table. -/
def sampleRow : RowObj := { attached := true, table := some sampleTable }

/-! ## Lemmas on the embedding -/

@[simp] theorem Check.bind_run {α β : Type} (m : Check α) (f : α → Check β) (env : JNIEnv) :
    (m >>= f) env = (match m env with
      | none => none
      | some (a, env1) => f a env1) := rfl

@[simp] theorem Check.pure_run {α : Type} (a : α) (env : JNIEnv) :
    (pure a : Check α) env = some (a, env) := rfl

@[simp] theorem ThrowException_run (k : ExceptionKind) (c i : String) (env : JNIEnv) :
    ThrowException k c i env = some ((), env ++ [Event.thrown k c i]) := rfl

@[simp] theorem raised_append (a b : JNIEnv) : raised (a ++ b) = raised a ++ raised b := by
  simp [raised, List.filterMap_append]

@[simp] theorem raised_nil : raised [] = [] := rfl

@[simp] theorem raised_cons_thrown (k : ExceptionKind) (c i : String) (env : JNIEnv) :
    raised (Event.thrown k c i :: env) = k :: raised env := rfl

@[simp] theorem raised_cons_native (q : Query) (env : JNIEnv) :
    raised (Event.native q :: env) = raised env := rfl

@[simp] theorem raised_cons_array (c : ArrayCall) (env : JNIEnv) :
    raised (Event.array c :: env) = raised env := rfl

@[simp] theorem raised_cons_object (c : ObjectCall) (env : JNIEnv) :
    raised (Event.object c :: env) = raised env := rfl

@[simp] theorem raised_cons_assertion (c : Bool) (env : JNIEnv) :
    raised (Event.assertion c :: env) = raised env := rfl

@[simp] theorem queried_append (a b : JNIEnv) : queried (a ++ b) = queried a ++ queried b := by
  simp [queried, List.filterMap_append]

@[simp] theorem queried_nil : queried [] = [] := rfl

@[simp] theorem queried_cons_thrown (k : ExceptionKind) (c i : String) (env : JNIEnv) :
    queried (Event.thrown k c i :: env) = queried env := rfl

@[simp] theorem queried_cons_native (q : Query) (env : JNIEnv) :
    queried (Event.native q :: env) = q :: queried env := rfl

@[simp] theorem queried_cons_array (c : ArrayCall) (env : JNIEnv) :
    queried (Event.array c :: env) = queried env := rfl

@[simp] theorem is_attached_run (t : TableObj) (env : JNIEnv) :
    is_attached (some t) env = some (t.attached, env ++ [Event.native Query.is_attached]) := rfl

@[simp] theorem row_is_attached_run (r : RowObj) (env : JNIEnv) :
    row_is_attached (some r) env =
      some (r.attached, env ++ [Event.native Query.row_is_attached]) := rfl

theorem get_column_count_run (t : TableObj) (env : JNIEnv) (h : t.attached = true) :
    get_column_count (some t) env =
      some (t.column_types.length, env ++ [Event.native Query.get_column_count]) := by
  simp [get_column_count, onTable, h]

theorem row_get_table_run (r : RowObj) (env : JNIEnv) (h : r.attached = true) :
    row_get_table (some r) env = some (r.table, env ++ [Event.native Query.row_get_table]) := by
  simp [row_get_table, h]

theorem size_run (t : TableObj) (env : JNIEnv) (h : t.attached = true) :
    size (some t) env = some (t.rows, env ++ [Event.native Query.size]) := by
  simp [size, onTable, h]

theorem jlong_of_size_t_small (n : Nat) (h : n < 2 ^ 63) : jlong_of_size_t n = (n : Int) := by
  have h1 : n % SIZE_MOD = n := Nat.mod_eq_of_lt (by unfold SIZE_MOD; omega)
  unfold jlong_of_size_t
  rw [h1, if_pos h]

theorem get_column_type_run (t : TableObj) (col : Nat) (d : Int) (env : JNIEnv)
    (h : t.attached = true) (hd : t.column_types[col]? = some d) :
    get_column_type (some t) col env =
      some (d, env ++ [Event.native (Query.get_column_type col)]) := by
  simp [get_column_type, onTable, h, hd]

theorem get_mixed_type_run (t : TableObj) (col row : Nat) (env : JNIEnv)
    (h : t.attached = true) (hc : col < t.column_types.length) (hr : row < t.rows) :
    get_mixed_type (some t) col row env =
      some (t.mixed_types col row, env ++ [Event.native (Query.get_mixed_type col row)]) := by
  simp [get_mixed_type, onTable, h, hc, hr]

theorem S_of_nonneg (x : Int) (h0 : 0 ≤ x) (h1 : x < (SIZE_MOD : Int)) : S x = x.toNat := by
  unfold S
  rw [Int.emod_eq_of_lt h0 h1]

theorem andAlso_run_true (a b : Check Bool) (env env1 : JNIEnv)
    (h : a env = some (true, env1)) : andAlso a b env = b env1 := by
  simp [andAlso, h]

theorem andAlso_run_false (a b : Check Bool) (env env1 : JNIEnv)
    (h : a env = some (false, env1)) : andAlso a b env = some (false, env1) := by
  simp [andAlso, h]

/-! ### The basic validators, case by case -/

theorem TableIsValid_null (T : NativeType) (env : JNIEnv) :
    TableIsValid T none env =
      some (false, env ++ [Event.thrown ExceptionKind.TableInvalid
        "Table is no longer valid to operate on." ""]) := by
  simp [TableIsValid]

theorem TableIsValid_detached (t : TableObj) (env : JNIEnv) (h : t.attached = false) :
    TableIsValid NativeType.Table (some t) env =
      some (false, env ++ [Event.native Query.is_attached,
        Event.thrown ExceptionKind.TableInvalid "Table is no longer valid to operate on." ""]) := by
  simp [TableIsValid, SameType, h]

theorem TableIsValid_attached (t : TableObj) (env : JNIEnv) (h : t.attached = true) :
    TableIsValid NativeType.Table (some t) env =
      some (true, env ++ [Event.native Query.is_attached]) := by
  simp [TableIsValid, SameType, h]

theorem ColIndexValid_negative (p : Option TableObj) (columnIndex : Int) (env : JNIEnv)
    (h : columnIndex < 0) :
    ColIndexValid p columnIndex env =
      some (false, env ++ [Event.thrown ExceptionKind.IndexOutOfBounds
        "columnIndex is less than 0." ""]) := by
  simp [ColIndexValid, h]

theorem ColIndexValid_large (t : TableObj) (columnIndex : Int) (env : JNIEnv)
    (hatt : t.attached = true) (h : (t.column_types.length : Int) ≤ columnIndex) :
    ColIndexValid (some t) columnIndex env =
      some (false, env ++ [Event.native Query.get_column_count,
        Event.thrown ExceptionKind.IndexOutOfBounds "columnIndex > available columns." ""]) := by
  have h0 : ¬ columnIndex < 0 := by omega
  simp [ColIndexValid, h0, get_column_count_run, hatt, int_greater_than_or_equal, h]

theorem ColIndexValid_inside (t : TableObj) (columnIndex : Int) (env : JNIEnv)
    (hatt : t.attached = true) (h0 : 0 ≤ columnIndex)
    (h : columnIndex < (t.column_types.length : Int)) :
    ColIndexValid (some t) columnIndex env =
      some (true, env ++ [Event.native Query.get_column_count]) := by
  have h1 : ¬ columnIndex < 0 := by omega
  have h2 : ¬ (t.column_types.length : Int) ≤ columnIndex := by omega
  simp [ColIndexValid, h1, get_column_count_run, hatt, int_greater_than_or_equal, h2]

theorem RowIndexValid_negative (p : Option TableObj) (rowIndex : Int) (offset : Bool)
    (env : JNIEnv) (h : rowIndex < 0) :
    RowIndexValid p rowIndex offset env =
      some (false, env ++ [Event.thrown ExceptionKind.IndexOutOfBounds
        "rowIndex is less than 0." ""]) := by
  simp [RowIndexValid, h]

theorem RowIndexValid_large (t : TableObj) (rowIndex : Int) (env : JNIEnv)
    (hatt : t.attached = true) (h : (t.rows : Int) ≤ rowIndex) :
    RowIndexValid (some t) rowIndex false env =
      some (false, env ++ [Event.native Query.size,
        Event.thrown ExceptionKind.IndexOutOfBounds "rowIndex > available rows." ""]) := by
  have h0 : ¬ rowIndex < 0 := by omega
  simp [RowIndexValid, h0, size_run, hatt, int_greater_than_or_equal, h]

theorem RowIndexValid_inside (t : TableObj) (rowIndex : Int) (env : JNIEnv)
    (hatt : t.attached = true) (h0 : 0 ≤ rowIndex) (h : rowIndex < (t.rows : Int)) :
    RowIndexValid (some t) rowIndex false env = some (true, env ++ [Event.native Query.size]) := by
  have h1 : ¬ rowIndex < 0 := by omega
  have h2 : ¬ (t.rows : Int) ≤ rowIndex := by omega
  simp [RowIndexValid, h1, size_run, hatt, int_greater_than_or_equal, h2]

theorem TypeValid_run (type_Mixed : Int) (t : TableObj) (columnIndex rowIndex : Int)
    (expectColType declared : Int) (allowMixed : Bool) (env : JNIEnv)
    (hatt : t.attached = true) (hwf : t.wf) (hcol : 0 ≤ columnIndex)
    (hdecl : t.column_types[columnIndex.toNat]? = some declared)
    (hrow : allowMixed = true → declared = type_Mixed →
      0 ≤ rowIndex ∧ rowIndex < (t.rows : Int)) :
    TypeValid type_Mixed (some t) columnIndex rowIndex expectColType allowMixed env =
      some (decide (resolvedType type_Mixed t declared columnIndex.toNat rowIndex.toNat
          allowMixed = expectColType),
        env ++ typeQueries type_Mixed declared columnIndex.toNat rowIndex.toNat allowMixed ++
          (if resolvedType type_Mixed t declared columnIndex.toNat rowIndex.toNat
              allowMixed = expectColType then []
            else [Event.thrown ExceptionKind.IllegalArgument "ColumnType invalid." ""])) := by
  have hlen : columnIndex.toNat < t.column_types.length := by
    by_contra hge
    rw [List.getElem?_eq_none (by omega)] at hdecl
    exact absurd hdecl (by simp)
  have hS : S columnIndex = columnIndex.toNat :=
    S_of_nonneg _ hcol (by have := hwf.2; omega)
  by_cases hm : allowMixed = true ∧ declared = type_Mixed
  · obtain ⟨hr0, hr1⟩ := hrow hm.1 hm.2
    have hSr : S rowIndex = rowIndex.toNat := S_of_nonneg _ hr0 (by have := hwf.1; omega)
    have hr2 : rowIndex.toNat < t.rows := by omega
    simp only [TypeValid, Check.bind_run, hS, hSr, get_column_type_run t _ declared _ hatt hdecl,
      resolvedType, typeQueries, if_pos hm, hm.1, hm.2, if_true,
      get_mixed_type_run t _ _ _ hatt hlen hr2]
    split_ifs <;> simp_all
  · simp only [TypeValid, Check.bind_run, hS, get_column_type_run t _ declared _ hatt hdecl,
      resolvedType, typeQueries, if_neg hm]
    rcases Bool.eq_false_or_eq_true allowMixed with ha | ha
    · have hd : ¬ declared = type_Mixed := fun hd => hm ⟨ha, hd⟩
      simp only [ha, if_true, if_neg hd]
      split_ifs <;> simp_all
    · simp only [ha]
      split_ifs <;> simp_all

/-! ## Row ranges -/

theorem RowIndexesValid_run (t : TableObj) (startIndex endIndex range : Int) (env : JNIEnv)
    (hatt : t.attached = true) :
    ∃ b env1, RowIndexesValid (some t) startIndex endIndex range env = some (b, env1) ∧
      (b = true ↔
        (0 ≤ startIndex ∧ startIndex ≤ resolveEnd t.rows endIndex ∧
          resolveEnd t.rows endIndex ≤ (t.rows : Int)) ∧
        (range = -1 ∨ 0 ≤ range)) ∧
      (b = false → raised env1 = raised env ++ [ExceptionKind.IndexOutOfBounds]) ∧
      (b = true → raised env1 = raised env) := by
  simp only [RowIndexesValid, Check.bind_run, size_run t env hatt, int_greater_than]
  generalize resolveEnd t.rows endIndex = en
  split_ifs <;> simp_all <;> omega

/-- C1 (as stated, refuted): on an attached table of `2 ^ 63` rows the call
`RowIndexesValid(start = 0, end = -1, range = -1)` returns false and raises
`IndexOutOfBounds`, although `0 <= start <= size <= size` and `limit == -1` hold: the
assignment `endIndex = maxIndex` turns the size into a negative `jlong`. -/
theorem RowIndexesValid_huge_table_rejected :
    hugeTable.attached = true ∧ hugeTable.wf ∧
    rowRangeSpec hugeTable.rows 0 (-1) (-1) ∧
    RowIndexesValid (some hugeTable) 0 (-1) (-1) [] =
      some (false, [Event.native Query.size,
        Event.thrown ExceptionKind.IndexOutOfBounds "startIndex > endIndex." ""]) := by
  refine ⟨rfl, by decide, by decide, by decide⟩

/-- C1 (amended): for an attached table whose row count fits a `jlong` (below `2 ^ 63`), or
when `end` is not the sentinel `-1`, `RowIndexesValid` returns true iff
`0 <= start <= end1 <= size` and (`limit == -1` or `limit >= 0`), where `end1 = size` if
`end == -1` and `end` otherwise, and `end1` is the value the code resolves `endIndex` to;
whenever it returns false it has raised exactly one exception, of kind `IndexOutOfBounds`,
and when it returns true it has raised none. -/
theorem RowIndexesValid_iff (t : TableObj) (startIndex endIndex range : Int) (env : JNIEnv)
    (hatt : t.attached = true) (hfit : t.rows < 2 ^ 63 ∨ endIndex ≠ -1) :
    ∃ b env1, RowIndexesValid (some t) startIndex endIndex range env = some (b, env1) ∧
      (b = true ↔ rowRangeSpec t.rows startIndex endIndex range) ∧
      resolveEnd t.rows endIndex = (if endIndex = -1 then (t.rows : Int) else endIndex) ∧
      (b = false → raised env1 = raised env ++ [ExceptionKind.IndexOutOfBounds]) ∧
      (b = true → raised env1 = raised env) := by
  have hend : resolveEnd t.rows endIndex = if endIndex = -1 then (t.rows : Int) else endIndex := by
    unfold resolveEnd
    split_ifs with h
    · rcases hfit with h1 | h1
      · exact jlong_of_size_t_small _ h1
      · exact absurd h h1
    · rfl
  obtain ⟨b, env1, hrun, hb, hf, ht⟩ := RowIndexesValid_run t startIndex endIndex range env hatt
  refine ⟨b, env1, hrun, ?_, hend, hf, ht⟩
  unfold rowRangeSpec
  rw [← hend]
  exact hb

/-- C1 scenario: on the three-row sample table `(start = 0, end = -1, limit = -1)` succeeds and
the end is resolved to 3. -/
theorem RowIndexesValid_iff_witness :
    RowIndexesValid (some sampleTable) 0 (-1) (-1) [] = some (true, [Event.native Query.size]) ∧
    resolveEnd sampleTable.rows (-1) = 3 ∧
    ∃ b env1, RowIndexesValid (some sampleTable) 0 (-1) (-1) [] = some (b, env1) ∧
      (b = true ↔ rowRangeSpec sampleTable.rows 0 (-1) (-1)) ∧
      resolveEnd sampleTable.rows (-1) = (if (-1 : Int) = -1 then (sampleTable.rows : Int) else -1) ∧
      (b = false → raised env1 = raised [] ++ [ExceptionKind.IndexOutOfBounds]) ∧
      (b = true → raised env1 = raised []) :=
  ⟨by decide, by decide, RowIndexesValid_iff sampleTable 0 (-1) (-1) [] rfl (Or.inl (by decide))⟩

/-! ## Row index -/

/-- C3: for an attached table, `RowIndexValid` with `offset = false` returns true iff
`0 <= row < size`; with `offset = true` and `size > 0` it returns true iff
`0 <= row < size - 1`; whenever it returns false it has raised exactly one exception, of kind
`IndexOutOfBounds` (and none when it returns true); row 0 on an empty table fails. -/
theorem RowIndexValid_iff (t : TableObj) (rowIndex : Int) (offset : Bool) (env : JNIEnv)
    (hatt : t.attached = true) :
    ∃ b env1, RowIndexValid (some t) rowIndex offset env = some (b, env1) ∧
      (offset = false → (b = true ↔ 0 ≤ rowIndex ∧ rowIndex < (t.rows : Int))) ∧
      (offset = true → 0 < t.rows → (b = true ↔ 0 ≤ rowIndex ∧ rowIndex < (t.rows : Int) - 1)) ∧
      (b = false → raised env1 = raised env ++ [ExceptionKind.IndexOutOfBounds]) ∧
      (b = true → raised env1 = raised env) ∧
      (t.rows = 0 → rowIndex = 0 → b = false) := by
  simp only [RowIndexValid, Check.bind_run, size_run t _ hatt, int_greater_than_or_equal]
  cases offset <;> split_ifs <;> simp_all [size_run] <;> split_ifs <;> simp_all <;> omega

/-- C3 scenario: row 0 on an attached table without rows fails with `IndexOutOfBounds`. -/
theorem RowIndexValid_iff_witness :
    RowIndexValid (some emptyTable) 0 false [] = some (false, [Event.native Query.size,
        Event.thrown ExceptionKind.IndexOutOfBounds "rowIndex > available rows." ""]) ∧
    ∃ b env1, RowIndexValid (some emptyTable) 0 false [] = some (b, env1) ∧
      (false = false → (b = true ↔ (0 : Int) ≤ 0 ∧ (0 : Int) < (emptyTable.rows : Int))) ∧
      (false = true → 0 < emptyTable.rows →
        (b = true ↔ (0 : Int) ≤ 0 ∧ (0 : Int) < (emptyTable.rows : Int) - 1)) ∧
      (b = false → raised env1 = raised [] ++ [ExceptionKind.IndexOutOfBounds]) ∧
      (b = true → raised env1 = raised []) ∧
      (emptyTable.rows = 0 → (0 : Int) = 0 → b = false) :=
  ⟨by decide, RowIndexValid_iff emptyTable 0 false [] rfl⟩

/-! ## Insert index -/

/-- C2 (code evaluated): on the attached three-row sample table, column 0, the insert check
accepts row `-1`: it returns true and raises nothing, although `0 <= row` fails.  The lower
bound that `RowIndexValid` and `ColIndexValid` test is not tested here. -/
theorem TblIndexInsertValid_accepts_negative_row :
    sampleTable.attached = true ∧ (0 : Int) < sampleTable.column_types.length ∧
    ¬ ((0 : Int) ≤ -1 ∧ (-1 : Int) ≤ (sampleTable.rows : Int) + 1) ∧
    TblIndexInsertValid NativeType.Table (some sampleTable) 0 (-1) [] =
      some (true, [Event.native Query.is_attached, Event.native Query.get_column_count,
        Event.native Query.size]) ∧
    RowIndexValid (some sampleTable) (-1) false [] =
      some (false, [Event.thrown ExceptionKind.IndexOutOfBounds "rowIndex is less than 0." ""]) := by
  refine ⟨rfl, by decide, by decide, by decide, by decide⟩

/-! ## Handles -/

/-- C4: `TableIsValid` on a `Table` handle and `RowIsValid` on a `Row` handle return false iff
the handle is null or its object is not attached; a false result comes with exactly one raised
exception, of kind `TableInvalid` for a table and `RowInvalid` for a row, two distinct kinds;
a true result raises nothing. -/
theorem handle_valid_iff (h : Option TableObj) (r : Option RowObj) (env : JNIEnv) :
    (∃ b env1, TableIsValid NativeType.Table h env = some (b, env1) ∧
      (b = false ↔ (h = none ∨ ∃ t, h = some t ∧ t.attached = false)) ∧
      (b = false → raised env1 = raised env ++ [ExceptionKind.TableInvalid]) ∧
      (b = true → raised env1 = raised env)) ∧
    (∃ b env1, RowIsValid r env = some (b, env1) ∧
      (b = false ↔ (r = none ∨ ∃ x, r = some x ∧ x.attached = false)) ∧
      (b = false → raised env1 = raised env ++ [ExceptionKind.RowInvalid]) ∧
      (b = true → raised env1 = raised env)) ∧
    ExceptionKind.TableInvalid ≠ ExceptionKind.RowInvalid := by
  refine ⟨?_, ?_, by decide⟩
  · cases h with
    | none => simp [TableIsValid]
    | some t => cases hatt : t.attached <;> simp [TableIsValid, SameType, hatt]
  · cases r with
    | none => simp [RowIsValid, andAlso]
    | some x => cases hatt : x.attached <;> simp [RowIsValid, andAlso, hatt]

/-- C5 (code evaluated): a non-null, detached view handed to `TableIsValid<TableView>` is
reported as valid: the result is true, nothing is raised and `is_attached` is never asked. -/
theorem TableIsValid_detached_view_accepted :
    detachedTable.attached = false ∧
    TableIsValid NativeType.TableView (some detachedTable) [] = some (true, []) ∧
    TableIsValid NativeType.Table (some detachedTable) [] =
      some (false, [Event.native Query.is_attached,
        Event.thrown ExceptionKind.TableInvalid "Table is no longer valid to operate on." ""]) := by
  refine ⟨rfl, by decide, by decide⟩

/-! ## Column index -/

theorem ColIndexValid_run (t : TableObj) (columnIndex : Int) (env : JNIEnv)
    (hatt : t.attached = true) :
    ∃ b env1, ColIndexValid (some t) columnIndex env = some (b, env1) ∧
      (b = false ↔ (columnIndex < 0 ∨ (t.column_types.length : Int) ≤ columnIndex)) ∧
      (b = false → raised env1 = raised env ++ [ExceptionKind.IndexOutOfBounds]) ∧
      (b = true → raised env1 = raised env) := by
  simp only [ColIndexValid, Check.bind_run, int_greater_than_or_equal]
  split_ifs <;> simp_all [get_column_count_run]
  split_ifs <;> simp_all

/-- C7: for an attached table `ColIndexValid` returns false iff `col < 0` or
`col >= column_count`, and a false result comes with exactly one raised exception, of kind
`IndexOutOfBounds`; `RowColIndexValid` on an attached row applies the same bound against the
column count of the table of the row. -/
theorem ColIndexValid_iff (t : TableObj) (r : RowObj) (columnIndex : Int) (env : JNIEnv)
    (hatt : t.attached = true) (hr : r.attached = true) (hrt : r.table = some t) :
    (∃ b env1, ColIndexValid (some t) columnIndex env = some (b, env1) ∧
      (b = false ↔ (columnIndex < 0 ∨ (t.column_types.length : Int) ≤ columnIndex)) ∧
      (b = false → raised env1 = raised env ++ [ExceptionKind.IndexOutOfBounds]) ∧
      (b = true → raised env1 = raised env)) ∧
    (∃ b env1, RowColIndexValid (some r) columnIndex env = some (b, env1) ∧
      (b = false ↔ (columnIndex < 0 ∨ (t.column_types.length : Int) ≤ columnIndex)) ∧
      (b = false → raised env1 = raised env ++ [ExceptionKind.IndexOutOfBounds]) ∧
      (b = true → raised env1 = raised env)) := by
  refine ⟨ColIndexValid_run t columnIndex env hatt, ?_⟩
  obtain ⟨b, env1, hrun, h1, h2, h3⟩ := ColIndexValid_run t columnIndex
    (env ++ [Event.native Query.row_is_attached] ++ [Event.native Query.row_get_table]) hatt
  refine ⟨b, env1, ?_, h1, ?_, ?_⟩
  · simp [RowColIndexValid, andAlso, RowIsValid, hr, row_get_table_run, hrt]
    simpa using hrun
  · intro hb
    simpa using h2 hb
  · intro hb
    simpa using h3 hb

/-- C7 on the sample row and its table, column 2 of 2: both checks fail. -/
theorem ColIndexValid_iff_witness :
    (∃ b env1, ColIndexValid (some sampleTable) 2 [] = some (b, env1) ∧
      (b = false ↔ ((2 : Int) < 0 ∨ (sampleTable.column_types.length : Int) ≤ 2)) ∧
      (b = false → raised env1 = raised [] ++ [ExceptionKind.IndexOutOfBounds]) ∧
      (b = true → raised env1 = raised [])) ∧
    (∃ b env1, RowColIndexValid (some sampleRow) 2 [] = some (b, env1) ∧
      (b = false ↔ ((2 : Int) < 0 ∨ (sampleTable.column_types.length : Int) ≤ 2)) ∧
      (b = false → raised env1 = raised [] ++ [ExceptionKind.IndexOutOfBounds]) ∧
      (b = true → raised env1 = raised [])) :=
  ColIndexValid_iff sampleTable sampleRow 2 [] rfl rfl rfl

/-! ## Column type -/

/-- C6: for an attached table and in-range `(col, row)`, `TypeValid` compares the expected
type with the resolved type: the type stored at `(col, row)` when `allowMixed` is set and the
declared column type is `type_Mixed`, and the declared column type in every other case, where
the row argument has no influence on the outcome.  It returns true iff the resolved type
equals the expected type; a false result comes with exactly one raised exception, of kind
`IllegalArgument`, a true result with none. -/
theorem TypeValid_iff (type_Mixed : Int) (t : TableObj) (columnIndex rowIndex : Int)
    (expectColType declared : Int) (allowMixed : Bool) (env : JNIEnv)
    (hatt : t.attached = true) (hwf : t.wf) (hcol : 0 ≤ columnIndex)
    (hdecl : t.column_types[columnIndex.toNat]? = some declared)
    (hrow0 : 0 ≤ rowIndex) (hrow : rowIndex < (t.rows : Int)) :
    ∃ b env1,
      TypeValid type_Mixed (some t) columnIndex rowIndex expectColType allowMixed env =
        some (b, env1) ∧
      (b = true ↔ resolvedType type_Mixed t declared columnIndex.toNat rowIndex.toNat
        allowMixed = expectColType) ∧
      (allowMixed = true → declared = type_Mixed →
        resolvedType type_Mixed t declared columnIndex.toNat rowIndex.toNat allowMixed =
          t.mixed_types columnIndex.toNat rowIndex.toNat) ∧
      (¬ (allowMixed = true ∧ declared = type_Mixed) →
        resolvedType type_Mixed t declared columnIndex.toNat rowIndex.toNat allowMixed =
          declared ∧
        ∀ row2 : Int,
          TypeValid type_Mixed (some t) columnIndex row2 expectColType allowMixed env =
            TypeValid type_Mixed (some t) columnIndex rowIndex expectColType allowMixed env) ∧
      (b = false → raised env1 = raised env ++ [ExceptionKind.IllegalArgument]) ∧
      (b = true → raised env1 = raised env) := by
  refine ⟨_, _, TypeValid_run type_Mixed t columnIndex rowIndex expectColType declared
    allowMixed env hatt hwf hcol hdecl (fun _ _ => ⟨hrow0, hrow⟩), by simp, ?_, ?_, ?_, ?_⟩
  · intro ha hd
    simp [resolvedType, ha, hd]
  · intro hm
    refine ⟨by simp only [resolvedType, if_neg hm], fun row2 => ?_⟩
    rw [TypeValid_run type_Mixed t columnIndex rowIndex expectColType declared
        allowMixed env hatt hwf hcol hdecl (fun _ _ => ⟨hrow0, hrow⟩),
      TypeValid_run type_Mixed t columnIndex row2 expectColType declared
        allowMixed env hatt hwf hcol hdecl (fun ha hd => absurd ⟨ha, hd⟩ hm)]
    simp only [resolvedType, typeQueries, if_neg hm]
  · intro hb
    have hne : ¬ resolvedType type_Mixed t declared columnIndex.toNat rowIndex.toNat
        allowMixed = expectColType := by simpa using hb
    simp [if_neg hne, typeQueries]
    split_ifs <;> simp
  · intro hb
    have he : resolvedType type_Mixed t declared columnIndex.toNat rowIndex.toNat
        allowMixed = expectColType := by simpa using hb
    simp [if_pos he, typeQueries]
    split_ifs <;> simp

/-- C6 on the sample table (column 1 is declared mixed, here `type_Mixed = 6`, and holds
type 2 in every row): with `allowMixed` the expected type 2 is accepted at row 1. -/
theorem TypeValid_iff_witness :
    TypeValid 6 (some sampleTable) 1 1 2 true [] =
      some (true, [Event.native (Query.get_column_type 1),
        Event.native (Query.get_mixed_type 1 1)]) ∧
    ∃ b env1,
      TypeValid 6 (some sampleTable) 1 1 2 true [] = some (b, env1) ∧
      (b = true ↔ resolvedType 6 sampleTable 6 (1 : Int).toNat (1 : Int).toNat true = 2) ∧
      (true = true → (6 : Int) = 6 →
        resolvedType 6 sampleTable 6 (1 : Int).toNat (1 : Int).toNat true =
          sampleTable.mixed_types (1 : Int).toNat (1 : Int).toNat) ∧
      (¬ (true = true ∧ (6 : Int) = 6) →
        resolvedType 6 sampleTable 6 (1 : Int).toNat (1 : Int).toNat true = 6 ∧
        ∀ row2 : Int,
          TypeValid 6 (some sampleTable) 1 row2 2 true [] =
            TypeValid 6 (some sampleTable) 1 1 2 true []) ∧
      (b = false → raised env1 = raised [] ++ [ExceptionKind.IllegalArgument]) ∧
      (b = true → raised env1 = raised []) :=
  ⟨by decide, TypeValid_iff 6 sampleTable 1 1 2 6 true [] rfl (by decide) (by decide) rfl
    (by decide) (by decide)⟩

/-! ## The composite check on a table handle -/

theorem getElem?_of_index (t : TableObj) (columnIndex : Int) (h0 : 0 ≤ columnIndex)
    (h : columnIndex < (t.column_types.length : Int)) :
    ∃ declared, t.column_types[columnIndex.toNat]? = some declared := by
  have hlt : columnIndex.toNat < t.column_types.length := by omega
  exact ⟨t.column_types[columnIndex.toNat], List.getElem?_eq_getElem hlt⟩

theorem index_of_getElem? (t : TableObj) (columnIndex declared : Int)
    (h : t.column_types[columnIndex.toNat]? = some declared) :
    columnIndex < (t.column_types.length : Int) := by
  by_contra hge
  rw [List.getElem?_eq_none (by omega)] at h
  exact absurd h (by simp)

/-- C8: `TblIndexAndTypeValid` on a `Table` handle returns true iff the handle is non-null and
attached, `0 <= col < column_count`, `0 <= row < size` and the resolved column type equals
the expected type.  A true result raises nothing.  A false result raises exactly one
exception, whose kind is that of the first failing check in the order table
(`TableInvalid`), column index (`IndexOutOfBounds`), row index (`IndexOutOfBounds`), type
(`IllegalArgument`); the raise is the last action of the call and no later check is
evaluated: an invalid table is asked at most `is_attached`, a bad column index leaves the
size and the types unasked, a bad row index leaves the types unasked. -/
theorem TblIndexAndTypeValid_iff (type_Mixed : Int) (h : Option TableObj)
    (columnIndex rowIndex expectColType : Int) (allowMixed : Bool) (env : JNIEnv)
    (hwf : ∀ t, h = some t → t.wf) :
    ∃ b new,
      TblIndexAndTypeValid type_Mixed NativeType.Table h columnIndex rowIndex expectColType
        allowMixed env = some (b, env ++ new) ∧
      (b = true ↔ ∃ t declared, h = some t ∧ t.attached = true ∧
        (0 ≤ columnIndex ∧ columnIndex < (t.column_types.length : Int)) ∧
        (0 ≤ rowIndex ∧ rowIndex < (t.rows : Int)) ∧
        t.column_types[columnIndex.toNat]? = some declared ∧
        resolvedType type_Mixed t declared columnIndex.toNat rowIndex.toNat allowMixed =
          expectColType) ∧
      (b = true → raised new = []) ∧
      (b = false → ∃ k, raised new = [k] ∧ ∃ c i, new.getLast? = some (Event.thrown k c i)) ∧
      ((h = none ∨ ∃ t, h = some t ∧ t.attached = false) →
        raised new = [ExceptionKind.TableInvalid] ∧
        ∀ q ∈ queried new, q = Query.is_attached) ∧
      (∀ t, h = some t → t.attached = true →
        ((¬ (0 ≤ columnIndex ∧ columnIndex < (t.column_types.length : Int)) →
          raised new = [ExceptionKind.IndexOutOfBounds] ∧
          ∀ q ∈ queried new, q = Query.is_attached ∨ q = Query.get_column_count) ∧
        ((0 ≤ columnIndex ∧ columnIndex < (t.column_types.length : Int)) →
          ¬ (0 ≤ rowIndex ∧ rowIndex < (t.rows : Int)) →
          raised new = [ExceptionKind.IndexOutOfBounds] ∧
          ∀ q ∈ queried new,
            q = Query.is_attached ∨ q = Query.get_column_count ∨ q = Query.size) ∧
        (∀ declared, (0 ≤ columnIndex ∧ columnIndex < (t.column_types.length : Int)) →
          (0 ≤ rowIndex ∧ rowIndex < (t.rows : Int)) →
          t.column_types[columnIndex.toNat]? = some declared →
          resolvedType type_Mixed t declared columnIndex.toNat rowIndex.toNat allowMixed ≠
            expectColType →
          raised new = [ExceptionKind.IllegalArgument]))) := by
  cases h with
  | none =>
    refine ⟨false, [Event.thrown ExceptionKind.TableInvalid
      "Table is no longer valid to operate on." ""], ?_, ?_⟩
    · rw [TblIndexAndTypeValid, andAlso_run_false _ _ _ _ (TableIsValid_null _ env)]
    · simp
  | some t =>
    have hwft : t.wf := hwf t rfl
    cases hatt : t.attached with
    | false =>
      refine ⟨false, [Event.native Query.is_attached, Event.thrown ExceptionKind.TableInvalid
        "Table is no longer valid to operate on." ""], ?_, ?_⟩
      · rw [TblIndexAndTypeValid, andAlso_run_false _ _ _ _ (TableIsValid_detached t env hatt)]
      · simp [hatt]
    | true =>
      rw [TblIndexAndTypeValid, andAlso_run_true _ _ _ _ (TableIsValid_attached t env hatt),
        IndexAndTypeValid, IndexValid]
      by_cases hc0 : columnIndex < 0
      · refine ⟨false, [Event.native Query.is_attached, Event.thrown
          ExceptionKind.IndexOutOfBounds "columnIndex is less than 0." ""], ?_, ?_⟩
        · rw [andAlso_run_false _ _ _ _ (andAlso_run_false _ _ _ _
            (ColIndexValid_negative _ _ _ hc0))]
          simp
        · have hn : ¬ 0 ≤ columnIndex := by omega
          simp [hatt, hn]
      by_cases hc1 : (t.column_types.length : Int) ≤ columnIndex
      · refine ⟨false, [Event.native Query.is_attached, Event.native Query.get_column_count,
          Event.thrown ExceptionKind.IndexOutOfBounds "columnIndex > available columns." ""],
          ?_, ?_⟩
        · rw [andAlso_run_false _ _ _ _ (andAlso_run_false _ _ _ _
            (ColIndexValid_large _ _ _ hatt hc1))]
          simp
        · have hn : ¬ columnIndex < (t.column_types.length : Int) := by omega
          simp [hatt, hn]
      have hc2 : 0 ≤ columnIndex := by omega
      have hc3 : columnIndex < (t.column_types.length : Int) := by omega
      by_cases hr0 : rowIndex < 0
      · refine ⟨false, [Event.native Query.is_attached, Event.native Query.get_column_count,
          Event.thrown ExceptionKind.IndexOutOfBounds "rowIndex is less than 0." ""], ?_, ?_⟩
        · rw [andAlso_run_false _ _ _ _ (by
            rw [andAlso_run_true _ _ _ _ (ColIndexValid_inside _ _ _ hatt hc2 hc3)]
            exact RowIndexValid_negative _ _ _ _ hr0)]
          simp
        · have hn : ¬ 0 ≤ rowIndex := by omega
          simp [hatt, hn, hc2, hc3]
      by_cases hr1 : (t.rows : Int) ≤ rowIndex
      · refine ⟨false, [Event.native Query.is_attached, Event.native Query.get_column_count,
          Event.native Query.size,
          Event.thrown ExceptionKind.IndexOutOfBounds "rowIndex > available rows." ""], ?_, ?_⟩
        · rw [andAlso_run_false _ _ _ _ (by
            rw [andAlso_run_true _ _ _ _ (ColIndexValid_inside _ _ _ hatt hc2 hc3)]
            exact RowIndexValid_large _ _ _ hatt hr1)]
          simp
        · have hn : ¬ rowIndex < (t.rows : Int) := by omega
          simp [hatt, hn, hc2, hc3]
      have hr2 : 0 ≤ rowIndex := by omega
      have hr3 : rowIndex < (t.rows : Int) := by omega
      obtain ⟨declared, hdecl⟩ := getElem?_of_index t columnIndex hc2 hc3
      rw [andAlso_run_true _ _ _ _ (by
          rw [andAlso_run_true _ _ _ _ (ColIndexValid_inside _ _ _ hatt hc2 hc3)]
          exact RowIndexValid_inside _ _ _ hatt hr2 hr3),
        TypeValid_run type_Mixed t columnIndex rowIndex expectColType declared allowMixed _
          hatt hwft hc2 hdecl (fun _ _ => ⟨hr2, hr3⟩)]
      by_cases hty : resolvedType type_Mixed t declared columnIndex.toNat rowIndex.toNat
          allowMixed = expectColType
      · refine ⟨true, [Event.native Query.is_attached, Event.native Query.get_column_count,
          Event.native Query.size] ++
          typeQueries type_Mixed declared columnIndex.toNat rowIndex.toNat allowMixed, ?_, ?_⟩
        · simp [hty]
        · have hq : raised (typeQueries type_Mixed declared columnIndex.toNat rowIndex.toNat
              allowMixed) = [] := by
            unfold typeQueries
            split_ifs <;> rfl
          simp [hatt, hc2, hc3, hr2, hr3, hdecl, hty, hq]
      · refine ⟨false, [Event.native Query.is_attached, Event.native Query.get_column_count,
          Event.native Query.size] ++
          typeQueries type_Mixed declared columnIndex.toNat rowIndex.toNat allowMixed ++
          [Event.thrown ExceptionKind.IllegalArgument "ColumnType invalid." ""], ?_, ?_⟩
        · simp [hty]
        · have hq : raised (typeQueries type_Mixed declared columnIndex.toNat rowIndex.toNat
              allowMixed) = [] := by
            unfold typeQueries
            split_ifs <;> rfl
          refine ⟨?_, ?_, ?_, ?_, ?_⟩
          · simp [hatt, hc2, hc3, hr2, hr3, hdecl, hty]
          · simp
          · intro _
            exact ⟨ExceptionKind.IllegalArgument, by simp [hq], _, _, List.getLast?_concat _⟩
          · simp [hatt]
          · simp [hatt, hc2, hc3, hr2, hr3, hdecl, hty, hq]

/-- C8 on the sample table, column 1, row 3 of 3: the call fails, with one exception, raised
last. -/
theorem TblIndexAndTypeValid_iff_witness :
    sampleTable.wf ∧
    ∃ b new,
      TblIndexAndTypeValid 6 NativeType.Table (some sampleTable) 1 3 2 false [] =
        some (b, [] ++ new) ∧
      (b = true → raised new = []) ∧
      (b = false → ∃ k, raised new = [k] ∧ ∃ c i, new.getLast? = some (Event.thrown k c i)) ∧
      raised new = [ExceptionKind.IndexOutOfBounds] := by
  obtain ⟨b, new, h1, _, h3, h4, _, h6⟩ :=
    TblIndexAndTypeValid_iff 6 (some sampleTable) 1 3 2 false []
      (by intro t ht; cases ht; decide)
  exact ⟨by decide, b, new, h1, h3, h4,
    ((h6 sampleTable rfl rfl).2.1 (by decide) (by decide)).1⟩

/-! ## Detached tables -/

/-- C9: for a null or detached `Table` handle and all index and type arguments, each of
`TblRowIndexValid`, `TblColIndexValid`, `TblIndexValid`, `TblIndexInsertValid`,
`TblColIndexAndTypeValid`, `TblIndexAndTypeValid` and `TblIndexAndTypeInsertValid` returns
false and adds the same actions to the trace: exactly one raised exception, of kind
`TableInvalid`, raised last, and no accessor call other than `is_attached`, so the size, the
column count and the column types are never asked. -/
theorem detached_table_rejected (type_Mixed : Int) (h : Option TableObj)
    (columnIndex rowIndex expectColType : Int) (offset allowMixed : Bool) (env : JNIEnv)
    (hbad : h = none ∨ ∃ t, h = some t ∧ t.attached = false) :
    ∃ new,
      raised new = [ExceptionKind.TableInvalid] ∧
      (∀ q ∈ queried new, q = Query.is_attached) ∧
      (∃ c i, new.getLast? = some (Event.thrown ExceptionKind.TableInvalid c i)) ∧
      TblRowIndexValid NativeType.Table h rowIndex offset env = some (false, env ++ new) ∧
      TblColIndexValid NativeType.Table h columnIndex env = some (false, env ++ new) ∧
      TblIndexValid NativeType.Table h columnIndex rowIndex env = some (false, env ++ new) ∧
      TblIndexInsertValid NativeType.Table h columnIndex rowIndex env =
        some (false, env ++ new) ∧
      TblColIndexAndTypeValid type_Mixed NativeType.Table h columnIndex expectColType env =
        some (false, env ++ new) ∧
      TblIndexAndTypeValid type_Mixed NativeType.Table h columnIndex rowIndex expectColType
        allowMixed env = some (false, env ++ new) ∧
      TblIndexAndTypeInsertValid type_Mixed NativeType.Table h columnIndex rowIndex
        expectColType env = some (false, env ++ new) := by
  have key : ∃ new, TableIsValid NativeType.Table h env = some (false, env ++ new) ∧
      raised new = [ExceptionKind.TableInvalid] ∧
      (∀ q ∈ queried new, q = Query.is_attached) ∧
      (∃ c i, new.getLast? = some (Event.thrown ExceptionKind.TableInvalid c i)) := by
    rcases hbad with hn | ⟨t, ht, hatt⟩
    · subst hn
      exact ⟨_, TableIsValid_null _ env, by simp, by simp, by simp⟩
    · subst ht
      exact ⟨_, TableIsValid_detached t env hatt, by simp, by simp, by simp⟩
  obtain ⟨new, hrun, hr, hq, hl⟩ := key
  have hcol : TblColIndexValid NativeType.Table h columnIndex env = some (false, env ++ new) := by
    simp [TblColIndexValid, SameType, hrun]
  have hins : TblIndexInsertValid NativeType.Table h columnIndex rowIndex env =
      some (false, env ++ new) := by
    simp [TblIndexInsertValid, hcol]
  refine ⟨new, hr, hq, hl, ?_, hcol, ?_, hins, ?_, ?_, ?_⟩
  · simp [TblRowIndexValid, SameType, hrun]
  · rw [TblIndexValid, andAlso_run_false _ _ _ _ hrun]
  · rw [TblColIndexAndTypeValid, andAlso_run_false _ _ _ _ hrun]
  · rw [TblIndexAndTypeValid, andAlso_run_false _ _ _ _ hrun]
  · rw [TblIndexAndTypeInsertValid, andAlso_run_false _ _ _ _ hins]

/-- C9 on the detached sample table: every composite gives the same failure. -/
theorem detached_table_rejected_witness :
    ∃ new,
      raised new = [ExceptionKind.TableInvalid] ∧
      (∀ q ∈ queried new, q = Query.is_attached) ∧
      (∃ c i, new.getLast? = some (Event.thrown ExceptionKind.TableInvalid c i)) ∧
      TblRowIndexValid NativeType.Table (some detachedTable) 0 false [] =
        some (false, [] ++ new) ∧
      TblColIndexValid NativeType.Table (some detachedTable) 0 [] = some (false, [] ++ new) ∧
      TblIndexValid NativeType.Table (some detachedTable) 0 0 [] = some (false, [] ++ new) ∧
      TblIndexInsertValid NativeType.Table (some detachedTable) 0 0 [] =
        some (false, [] ++ new) ∧
      TblColIndexAndTypeValid 6 NativeType.Table (some detachedTable) 0 0 [] =
        some (false, [] ++ new) ∧
      TblIndexAndTypeValid 6 NativeType.Table (some detachedTable) 0 0 0 true [] =
        some (false, [] ++ new) ∧
      TblIndexAndTypeInsertValid 6 NativeType.Table (some detachedTable) 0 0 0 [] =
        some (false, [] ++ new) :=
  detached_table_rejected 6 (some detachedTable) 0 0 0 false true []
    (Or.inr ⟨detachedTable, rfl, rfl⟩)

/-! ## Key buffer -/

/-- C10: the constructor of `KeyBuffer` always completes; a null key raises nothing in either
build; with encryption compiled in, a non-null key raises nothing iff its length is exactly 32
and raises exactly `UnsupportedOperation` otherwise; with encryption compiled out, every
non-null key raises exactly `UnsupportedOperation`. -/
theorem KeyBuffer_construct_raises (TIGHTDB_ENABLE_ENCRYPTION : Bool)
    (arr : Option JByteArray) (env : JNIEnv) :
    ∃ k new, KeyBuffer.construct TIGHTDB_ENABLE_ENCRYPTION arr env = some (k, env ++ new) ∧
      (arr = none → raised new = []) ∧
      (TIGHTDB_ENABLE_ENCRYPTION = true → ∀ a, arr = some a →
        (raised new = [] ↔ a.bytes.length = 32) ∧
        (a.bytes.length ≠ 32 → raised new = [ExceptionKind.UnsupportedOperation])) ∧
      (TIGHTDB_ENABLE_ENCRYPTION = false → ∀ a, arr = some a →
        raised new = [ExceptionKind.UnsupportedOperation]) := by
  cases TIGHTDB_ENABLE_ENCRYPTION with
  | false =>
    cases arr with
    | none =>
      exact ⟨{ m_array := none, m_ptr := none }, [], by simp [KeyBuffer.construct],
        by simp, by simp, by simp⟩
    | some a =>
      exact ⟨{ m_array := some a, m_ptr := none },
        [Event.thrown ExceptionKind.UnsupportedOperation
          "Encryption was disabled in the native library at compile time." ""],
        by simp [KeyBuffer.construct], by simp, by simp, by simp⟩
  | true =>
    cases arr with
    | none =>
      exact ⟨{ m_array := none, m_ptr := none }, [], by simp [KeyBuffer.construct],
        by simp, by simp, by simp⟩
    | some a =>
      by_cases hlen : a.bytes.length = 32
      · exact ⟨{ m_array := some a, m_ptr := if a.obtainable then some a.bytes else none },
          [Event.array ArrayCall.GetArrayLength, Event.array ArrayCall.GetByteArrayElements],
          by simp [KeyBuffer.construct, GetArrayLength, GetByteArrayElements, hlen],
          by simp, by simp [hlen], by simp⟩
      · have hne : ¬ (a.bytes.length : Int) = 32 := by omega
        exact ⟨{ m_array := some a, m_ptr := if a.obtainable then some a.bytes else none },
          [Event.array ArrayCall.GetArrayLength,
            Event.thrown ExceptionKind.UnsupportedOperation
              "Encryption key must be exactly 32 bytes." "",
            Event.array ArrayCall.GetByteArrayElements],
          by simp [KeyBuffer.construct, GetArrayLength, GetByteArrayElements, hne],
          by simp, by simp [hlen], by simp⟩

/-! ## Exception translation -/

theorem isPrefixOf_append_self (sub post : List Char) : sub.isPrefixOf (sub ++ post) = true := by
  induction sub with
  | nil => simp [List.isPrefixOf]
  | cons c cs ih => simp [List.isPrefixOf, ih]

theorem occursInList_append (sub pre post : List Char) :
    occursInList sub (pre ++ (sub ++ post)) = true := by
  induction pre with
  | nil =>
    cases h : sub ++ post with
    | nil =>
      have hs : sub = [] := (List.append_eq_nil.mp h).1
      simp [occursInList, hs, List.isPrefixOf]
    | cons c cs =>
      rw [List.nil_append, occursInList, ← h, isPrefixOf_append_self]
      rfl
  | cons c cs ih =>
    rw [List.cons_append, occursInList, ih]
    simp

theorem occursIn_of_data (sub s : String) (pre post : List Char)
    (h : s.data = pre ++ (sub.data ++ post)) : occursIn sub s = true := by
  unfold occursIn
  rw [h]
  exact occursInList_append _ _ _

/-- C11: a `try` block closed by `CATCH_FILE` and `CATCH_STD` turns every native failure into
exactly one exception, of kind `IllegalArgument` for an invalid database, `IOFailed` for
permission denied, `FileNotFound` for not found, `FileAccessError` for any other file access
error, `OutOfMemory` for an allocation failure, `Unspecified` for any other failure of the
standard exception hierarchy and `RuntimeError` for anything else.  Permission denied and not
found are file access errors as well, yet get their own kinds, and the three file kinds are
pairwise distinct. -/
theorem translate_kind (fileName FILE : String) (LINE : Nat) (e : NativeFailure)
    (env : JNIEnv) :
    (∃ new, translate fileName FILE LINE e env = some ((), env ++ new) ∧
      raised new = [translatedKind e.cls]) ∧
    (translatedKind .InvalidDatabase = .IllegalArgument ∧
      translatedKind .PermissionDenied = .IOFailed ∧
      translatedKind .NotFound = .FileNotFound ∧
      translatedKind .AccessError = .FileAccessError ∧
      translatedKind .bad_alloc = .OutOfMemory ∧
      translatedKind .std_exception = .Unspecified ∧
      translatedKind .foreign = .RuntimeError) ∧
    (NativeClass.isA .PermissionDenied .AccessError = true ∧
      NativeClass.isA .NotFound .AccessError = true) ∧
    (ExceptionKind.IOFailed ≠ ExceptionKind.FileNotFound ∧
      ExceptionKind.IOFailed ≠ ExceptionKind.FileAccessError ∧
      ExceptionKind.FileNotFound ≠ ExceptionKind.FileAccessError) := by
  refine ⟨?_, by decide, by decide, by decide⟩
  obtain ⟨cls, what⟩ := e
  cases cls
  case foreign =>
    exact ⟨[Event.assertion false, Event.thrown ExceptionKind.RuntimeError
      ("Exception in " ++ FILE ++ " line " ++ STRINGIZE LINE) ""],
      by simp [translate, CATCH_FILE, CATCH_STD, NativeClass.isA, NativeClass.base,
        TIGHTDB_ASSERT], rfl⟩
  all_goals exact ⟨_, rfl, rfl⟩

/-- C12 (as stated, refuted): for a file that is not found, with the native message
`No such file`, the exception carries the path and an empty second string: the native
message occurs in neither of its two descriptive strings. -/
theorem translate_not_found_drops_message :
    translate "db.realm" "x.cpp" 42 ⟨NativeClass.NotFound, "No such file"⟩ [] =
      some ((), [Event.thrown ExceptionKind.FileNotFound "db.realm" ""]) ∧
    occursIn "No such file" "db.realm" = false ∧
    occursIn "No such file" "" = false := by
  refine ⟨by decide, by decide, by decide⟩

/-- C12 (amended): for each of the three file failures and every file name and native
message, `CATCH_FILE` raises one exception whose first descriptive string is the file path;
for permission denied and for a generic access error the second string carries the native
message (for permission denied after the words `Permission denied. `); for not found the
second string is empty. -/
theorem translate_file_strings (fileName FILE : String) (LINE : Nat) (e : NativeFailure)
    (env : JNIEnv)
    (hfile : e.cls = .PermissionDenied ∨ e.cls = .NotFound ∨ e.cls = .AccessError) :
    ∃ itemStr,
      translate fileName FILE LINE e env =
        some ((), env ++ [Event.thrown (translatedKind e.cls) fileName itemStr]) ∧
      (e.cls = .PermissionDenied → itemStr = "Permission denied. " ++ e.what) ∧
      (e.cls = .AccessError → itemStr = e.what) ∧
      (e.cls = .PermissionDenied ∨ e.cls = .AccessError → occursIn e.what itemStr = true) ∧
      (e.cls = .NotFound → itemStr = "") := by
  obtain ⟨cls, what⟩ := e
  rcases hfile with h | h | h <;> simp only at h <;> subst h
  · refine ⟨"Permission denied. " ++ what, rfl, by simp, by simp, ?_, by simp⟩
    intro _
    exact occursIn_of_data _ _ "Permission denied. ".data [] (by simp)
  · exact ⟨"", rfl, by simp, by simp, by simp, by simp⟩
  · refine ⟨what, rfl, by simp, by simp, ?_, by simp⟩
    intro _
    exact occursIn_of_data _ _ [] [] (by simp)

/-- C12 on a permission failure of `db.realm` with the native message `locked`. -/
theorem translate_file_strings_witness :
    translate "db.realm" "x.cpp" 42 ⟨NativeClass.PermissionDenied, "locked"⟩ [] =
      some ((), [Event.thrown ExceptionKind.IOFailed "db.realm" "Permission denied. locked"]) ∧
    ∃ itemStr,
      translate "db.realm" "x.cpp" 42 ⟨NativeClass.PermissionDenied, "locked"⟩ [] =
        some ((), [] ++ [Event.thrown (translatedKind NativeClass.PermissionDenied)
          "db.realm" itemStr]) ∧
      occursIn "locked" itemStr = true := by
  obtain ⟨itemStr, h1, _, _, h4, _⟩ :=
    translate_file_strings "db.realm" "x.cpp" 42 ⟨NativeClass.PermissionDenied, "locked"⟩ []
      (Or.inl rfl)
  exact ⟨by decide, itemStr, h1, h4 (Or.inl rfl)⟩

/-- C13 (as stated, refuted): an invalid database failure caught at line 42 of `x.cpp` is
translated by `CATCH_FILE` into an exception whose two descriptive strings contain neither
the source file name nor the line number. -/
theorem translate_file_clause_has_no_location :
    translate "db.realm" "x.cpp" 42 ⟨NativeClass.InvalidDatabase, "bad header"⟩ [] =
      some ((), [Event.thrown ExceptionKind.IllegalArgument "Invalid Group file format." ""]) ∧
    occursIn "x.cpp" "Invalid Group file format." = false ∧
    occursIn (STRINGIZE 42) "Invalid Group file format." = false ∧
    occursIn "x.cpp" "" = false ∧
    occursIn (STRINGIZE 42) "" = false := by
  refine ⟨by decide, by decide, by decide, by decide, by decide⟩

/-- C13 (amended): for every native failure that reaches the `CATCH_STD` clauses (no clause
of `CATCH_FILE` takes it), the descriptive text of the one raised exception contains the
source file name and the line number of the catch site; for every native failure that a
clause of `CATCH_FILE` takes, the translation does not depend on the source file name and the
line number of the catch site. -/
theorem translate_std_location (fileName FILE : String) (LINE : Nat) (e : NativeFailure)
    (env : JNIEnv) :
    (CATCH_FILE fileName e = none →
      ∃ pre text itemStr,
        translate fileName FILE LINE e env =
          some ((), env ++ pre ++ [Event.thrown (translatedKind e.cls) text itemStr]) ∧
        raised pre = [] ∧
        occursIn FILE text = true ∧
        occursIn (STRINGIZE LINE) text = true) ∧
    ((CATCH_FILE fileName e).isSome = true →
      ∀ (FILE2 : String) (LINE2 : Nat),
        translate fileName FILE2 LINE2 e env = translate fileName FILE LINE e env) := by
  obtain ⟨cls, what⟩ := e
  have hloc : ∀ head : String,
      occursIn FILE (head ++ FILE ++ " line " ++ STRINGIZE LINE) = true ∧
      occursIn (STRINGIZE LINE) (head ++ FILE ++ " line " ++ STRINGIZE LINE) = true := by
    intro head
    constructor
    · exact occursIn_of_data _ _ head.data (" line " ++ STRINGIZE LINE).data
        (by simp [List.append_assoc])
    · exact occursIn_of_data _ _ (head ++ FILE ++ " line ").data []
        (by simp [List.append_assoc])
  constructor
  · intro hstd
    cases cls
    case bad_alloc =>
      exact ⟨[], what ++ " in " ++ FILE ++ " line " ++ STRINGIZE LINE, "",
        by simp [translate, CATCH_FILE, CATCH_STD, NativeClass.isA, NativeClass.base,
          translatedKind], rfl,
        (hloc (what ++ " in ")).1, (hloc (what ++ " in ")).2⟩
    case std_exception =>
      exact ⟨[], what ++ " in " ++ FILE ++ " line " ++ STRINGIZE LINE, "",
        by simp [translate, CATCH_FILE, CATCH_STD, NativeClass.isA, NativeClass.base,
          translatedKind], rfl,
        (hloc (what ++ " in ")).1, (hloc (what ++ " in ")).2⟩
    case foreign =>
      exact ⟨[Event.assertion false], "Exception in " ++ FILE ++ " line " ++ STRINGIZE LINE,
        "", rfl, rfl, (hloc "Exception in ").1, (hloc "Exception in ").2⟩
    all_goals simp [CATCH_FILE, NativeClass.isA, NativeClass.base] at hstd
  · intro hfile FILE2 LINE2
    cases cls
    case bad_alloc => simp [CATCH_FILE, NativeClass.isA, NativeClass.base] at hfile
    case std_exception => simp [CATCH_FILE, NativeClass.isA, NativeClass.base] at hfile
    case foreign => simp [CATCH_FILE, NativeClass.isA, NativeClass.base] at hfile
    all_goals rfl

/-- C13 on an allocation failure caught at line 42 of `x.cpp`, which carries the place, and
on a permission failure of `db42.realm`, whose translation is the same at every catch site. -/
theorem translate_std_location_witness :
    translate "db.realm" "x.cpp" 42 ⟨NativeClass.bad_alloc, "std::bad_alloc"⟩ [] =
      some ((), [Event.thrown ExceptionKind.OutOfMemory "std::bad_alloc in x.cpp line 42" ""]) ∧
    (∃ pre text itemStr,
      translate "db.realm" "x.cpp" 42 ⟨NativeClass.bad_alloc, "std::bad_alloc"⟩ [] =
        some ((), [] ++ pre ++ [Event.thrown (translatedKind NativeClass.bad_alloc)
          text itemStr]) ∧
      raised pre = [] ∧
      occursIn "x.cpp" text = true ∧
      occursIn (STRINGIZE 42) text = true) ∧
    translate "db42.realm" "db" 42 ⟨NativeClass.PermissionDenied, "locked"⟩ [] =
      some ((), [Event.thrown ExceptionKind.IOFailed "db42.realm"
        "Permission denied. locked"]) ∧
    translate "db42.realm" "y.cpp" 7 ⟨NativeClass.PermissionDenied, "locked"⟩ [] =
      translate "db42.realm" "db" 42 ⟨NativeClass.PermissionDenied, "locked"⟩ [] :=
  ⟨by decide,
    (translate_std_location "db.realm" "x.cpp" 42
      ⟨NativeClass.bad_alloc, "std::bad_alloc"⟩ []).1 rfl,
    by decide,
    (translate_std_location "db42.realm" "db" 42
      ⟨NativeClass.PermissionDenied, "locked"⟩ []).2 rfl "y.cpp" 7⟩

/-! ## Key buffer scope -/

/-- C14: over the life of a `KeyBuffer` (constructor, then destructor) and for every key and
build, the key bytes were acquired (`GetByteArrayElements` gave a non-null pointer, which is
what `data()` shows) exactly when encryption is compiled in and the key is non-null and
obtainable; when they were acquired they are released exactly once, in abort mode, as the
last action; when they were not (null key, failed acquisition, encryption compiled out)
nothing is released. -/
theorem KeyBuffer_lifetime_release (TIGHTDB_ENABLE_ENCRYPTION : Bool)
    (arr : Option JByteArray) (env : JNIEnv) :
    ∃ d new, KeyBuffer.lifetime TIGHTDB_ENABLE_ENCRYPTION arr env = some (d, env ++ new) ∧
      (d.isSome = true ↔
        (TIGHTDB_ENABLE_ENCRYPTION = true ∧ ∃ a, arr = some a ∧ a.obtainable = true)) ∧
      (d.isSome = true →
        releases new = [true] ∧ acquisitions new = 1 ∧
        new.getLast? = some (Event.array (ArrayCall.ReleaseByteArrayElements true))) ∧
      (d.isSome = false → releases new = []) ∧
      ((arr = none ∨ TIGHTDB_ENABLE_ENCRYPTION = false ∨
          ∃ a, arr = some a ∧ a.obtainable = false) → releases new = []) := by
  cases TIGHTDB_ENABLE_ENCRYPTION with
  | false =>
    cases arr with
    | none =>
      exact ⟨none, [], by simp [KeyBuffer.lifetime, KeyBuffer.construct, KeyBuffer.destroy,
        KeyBuffer.data], by simp [releases]⟩
    | some a =>
      exact ⟨none, [Event.thrown ExceptionKind.UnsupportedOperation
          "Encryption was disabled in the native library at compile time." ""],
        by simp [KeyBuffer.lifetime, KeyBuffer.construct, KeyBuffer.destroy, KeyBuffer.data],
        by simp [releases]⟩
  | true =>
    cases arr with
    | none =>
      exact ⟨none, [], by simp [KeyBuffer.lifetime, KeyBuffer.construct, KeyBuffer.destroy,
        KeyBuffer.data], by simp [releases]⟩
    | some a =>
      by_cases hlen : (a.bytes.length : Int) = 32 <;> cases hob : a.obtainable
      · exact ⟨none, [Event.array ArrayCall.GetArrayLength,
            Event.array ArrayCall.GetByteArrayElements],
          by simp [KeyBuffer.lifetime, KeyBuffer.construct, KeyBuffer.destroy, KeyBuffer.data,
            GetArrayLength, GetByteArrayElements, hlen, hob],
          by simp [releases, hob]⟩
      · exact ⟨some a.bytes, [Event.array ArrayCall.GetArrayLength,
            Event.array ArrayCall.GetByteArrayElements,
            Event.array (ArrayCall.ReleaseByteArrayElements true)],
          by simp [KeyBuffer.lifetime, KeyBuffer.construct, KeyBuffer.destroy, KeyBuffer.data,
            GetArrayLength, GetByteArrayElements, ReleaseByteArrayElements, hlen, hob],
          by simp [releases, acquisitions, hob]⟩
      · exact ⟨none, [Event.array ArrayCall.GetArrayLength,
            Event.thrown ExceptionKind.UnsupportedOperation
              "Encryption key must be exactly 32 bytes." "",
            Event.array ArrayCall.GetByteArrayElements],
          by simp [KeyBuffer.lifetime, KeyBuffer.construct, KeyBuffer.destroy, KeyBuffer.data,
            GetArrayLength, GetByteArrayElements, hlen, hob],
          by simp [releases, hob]⟩
      · exact ⟨some a.bytes, [Event.array ArrayCall.GetArrayLength,
            Event.thrown ExceptionKind.UnsupportedOperation
              "Encryption key must be exactly 32 bytes." "",
            Event.array ArrayCall.GetByteArrayElements,
            Event.array (ArrayCall.ReleaseByteArrayElements true)],
          by simp [KeyBuffer.lifetime, KeyBuffer.construct, KeyBuffer.destroy, KeyBuffer.data,
            GetArrayLength, GetByteArrayElements, ReleaseByteArrayElements, hlen, hob],
          by simp [releases, acquisitions, hob]⟩

/-- C17 (code evaluated): with encryption compiled in, a two-byte key is rejected with
`UnsupportedOperation`, and the constructor goes on to acquire the key bytes all the same:
`GetByteArrayElements` is called after the raise and `data()` hands the rejected bytes out.
With encryption compiled out the same key is rejected and nothing is acquired. -/
theorem KeyBuffer_rejected_key_exposed :
    KeyBuffer.construct true (some ⟨[1, 2], true⟩) [] =
      some ({ m_array := some ⟨[1, 2], true⟩, m_ptr := some [1, 2] },
        [Event.array ArrayCall.GetArrayLength,
          Event.thrown ExceptionKind.UnsupportedOperation
            "Encryption key must be exactly 32 bytes." "",
          Event.array ArrayCall.GetByteArrayElements]) ∧
    KeyBuffer.data { m_array := some ⟨[1, 2], true⟩, m_ptr := some [1, 2] } = some [1, 2] ∧
    KeyBuffer.construct false (some ⟨[1, 2], true⟩) [] =
      some ({ m_array := some ⟨[1, 2], true⟩, m_ptr := none },
        [Event.thrown ExceptionKind.UnsupportedOperation
          "Encryption was disabled in the native library at compile time." ""]) := by
  refine ⟨by decide, by decide, by decide⟩

/-! ## Conversion of search results -/

/-- C18: for every `size_t` value `res`, `to_jlong_or_not_found` gives `-1` iff `res` is the
sentinel `not_found`, the maximum `size_t` value; for every `res` below `2 ^ 63` other than
the sentinel the result is `res` itself and is non-negative. -/
theorem to_jlong_or_not_found_spec (res : Nat) (hres : res < SIZE_MOD) :
    (to_jlong_or_not_found res = -1 ↔ res = not_found) ∧
    not_found = SIZE_MOD - 1 ∧
    (res < 2 ^ 63 → res ≠ not_found →
      to_jlong_or_not_found res = (res : Int) ∧ 0 ≤ to_jlong_or_not_found res) := by
  have hmod : res % SIZE_MOD = res := Nat.mod_eq_of_lt hres
  unfold SIZE_MOD at hres hmod
  refine ⟨?_, rfl, ?_⟩
  · unfold to_jlong_or_not_found
    split_ifs with h
    · simp [h]
    · simp only [h, iff_false]
      unfold not_found SIZE_MOD at h
      unfold jlong_of_size_t SIZE_MOD
      rw [hmod]
      split_ifs
      · exact not_false
      · push_cast
        omega
  · intro hsmall hne
    unfold to_jlong_or_not_found
    rw [if_neg hne, jlong_of_size_t_small res hsmall]
    exact ⟨rfl, Int.ofNat_nonneg res⟩

/-- C18 on the sentinel itself: it is a `size_t` value and is turned into `-1`. -/
theorem to_jlong_or_not_found_spec_witness :
    not_found < SIZE_MOD ∧
    (to_jlong_or_not_found not_found = -1 ↔ not_found = not_found) ∧
    not_found = SIZE_MOD - 1 ∧
    (not_found < 2 ^ 63 → not_found ≠ not_found →
      to_jlong_or_not_found not_found = (not_found : Int) ∧
        0 ≤ to_jlong_or_not_found not_found) :=
  ⟨by decide, to_jlong_or_not_found_spec not_found (by decide)⟩

/-! ## List helpers -/

/-- C19: for every list object, `java_lang_List_size` and `java_lang_List_get` return the
sentinel (`-1`, null) and raise nothing when the class of the object cannot be obtained;
when the class is there but the method `size` / `get` is not found they raise `NoSuchMethod`
once and return the sentinel without invoking anything on the list; otherwise they return
exactly what invoking the method on the list gives (with the index for `get`), invoke it
once and raise nothing. -/
theorem java_lang_List_helpers (jList : JList) (index : Int) (env : JNIEnv) :
    (jList.objectClass = none →
      java_lang_List_size jList env =
        some (-1, env ++ [Event.object ObjectCall.GetObjectClass]) ∧
      java_lang_List_get jList index env =
        some (none, env ++ [Event.object ObjectCall.GetObjectClass])) ∧
    (∀ c, jList.objectClass = some c →
      (c.methodID "size" "()I" = none →
        java_lang_List_size jList env =
          some (-1, env ++ [Event.object ObjectCall.GetObjectClass,
            Event.object (ObjectCall.GetMethodID "size" "()I"),
            Event.thrown ExceptionKind.NoSuchMethod "jList" "size"])) ∧
      (c.methodID "get" "(I)Ljava/lang/Object;" = none →
        java_lang_List_get jList index env =
          some (none, env ++ [Event.object ObjectCall.GetObjectClass,
            Event.object (ObjectCall.GetMethodID "get" "(I)Ljava/lang/Object;"),
            Event.thrown ExceptionKind.NoSuchMethod "jList" "get"])) ∧
      (∀ m, c.methodID "size" "()I" = some m →
        java_lang_List_size jList env =
          some (jList.intMethod m, env ++ [Event.object ObjectCall.GetObjectClass,
            Event.object (ObjectCall.GetMethodID "size" "()I"),
            Event.object (ObjectCall.CallIntMethod m)])) ∧
      (∀ m, c.methodID "get" "(I)Ljava/lang/Object;" = some m →
        java_lang_List_get jList index env =
          some (jList.objectMethod m index, env ++ [Event.object ObjectCall.GetObjectClass,
            Event.object (ObjectCall.GetMethodID "get" "(I)Ljava/lang/Object;"),
            Event.object (ObjectCall.CallObjectMethod m index)]))) := by
  refine ⟨?_, ?_⟩
  · intro hc
    simp [java_lang_List_size, java_lang_List_get, GetObjectClass, hc]
  · intro c hc
    refine ⟨?_, ?_, ?_, ?_⟩
    · intro hm
      simp [java_lang_List_size, GetObjectClass, GetMethodID, hc, hm]
    · intro hm
      simp [java_lang_List_get, GetObjectClass, GetMethodID, hc, hm]
    · intro m hm
      simp [java_lang_List_size, GetObjectClass, GetMethodID, CallIntMethod, hc, hm]
    · intro m hm
      simp [java_lang_List_get, GetObjectClass, GetMethodID, CallObjectMethod, hc, hm]

/-! ## The discipline of the validators -/

theorem onTable_quiet {α : Type} (p : Option TableObj) (q : Query) (f : TableObj → Option α) :
    Quiet (onTable p q f) := by
  intro env a env1 h
  unfold onTable at h
  cases p with
  | none => simp at h
  | some t =>
    cases hf : f t <;> cases hatt : t.attached <;> simp [hf, hatt] at h
    obtain ⟨_, rfl⟩ := h
    simp

theorem Disciplined_andAlso (a b : Check Bool) (ha : Disciplined a) (hb : Disciplined b) :
    Disciplined (andAlso a b) := by
  intro env r env1 h
  cases hrun : a env with
  | none => simp [andAlso, hrun] at h
  | some res =>
    obtain ⟨r1, e1⟩ := res
    cases r1 with
    | false =>
      rw [andAlso_run_false _ _ _ _ hrun] at h
      simp only [Option.some.injEq, Prod.mk.injEq] at h
      obtain ⟨rfl, rfl⟩ := h
      exact ha env false e1 hrun
    | true =>
      rw [andAlso_run_true _ _ _ _ hrun] at h
      have h1 := (ha env true e1 hrun).1 rfl
      have h2 := hb e1 r env1 h
      rw [h1] at h2
      exact h2

theorem Disciplined_bind {α : Type} (m : Check α) (f : α → Check Bool) (hm : Quiet m)
    (hf : ∀ a, Disciplined (f a)) : Disciplined (m >>= f) := by
  intro env r env1 h
  rw [Check.bind_run] at h
  cases hrun : m env with
  | none => simp [hrun] at h
  | some res =>
    obtain ⟨a, e1⟩ := res
    simp only [hrun] at h
    have h1 := hm env a e1 hrun
    have h2 := hf a e1 r env1 h
    rw [h1] at h2
    exact h2

theorem ColIndexValid_disciplined (p : Option TableObj) (columnIndex : Int) :
    Disciplined (ColIndexValid p columnIndex) := by
  intro env b env1 h
  by_cases hc : columnIndex < 0
  · rw [ColIndexValid_negative p columnIndex env hc] at h
    cases h
    simp
  · simp only [ColIndexValid, Check.bind_run, if_neg hc] at h
    cases hq : get_column_count p env with
    | none => simp [hq] at h
    | some res =>
      obtain ⟨n, e1⟩ := res
      have hquiet := onTable_quiet _ _ _ env n e1 hq
      simp only [hq] at h
      split_ifs at h <;>
        simp only [Check.bind_run, Check.pure_run, ThrowException_run, Option.some.injEq,
          Prod.mk.injEq] at h <;>
        obtain ⟨rfl, rfl⟩ := h <;> simp_all

theorem RowIndexValid_disciplined (p : Option TableObj) (rowIndex : Int) (offset : Bool) :
    Disciplined (RowIndexValid p rowIndex offset) := by
  intro env b env1 h
  by_cases hc : rowIndex < 0
  · rw [RowIndexValid_negative p rowIndex offset env hc] at h
    simp only [Option.some.injEq, Prod.mk.injEq] at h
    obtain ⟨rfl, rfl⟩ := h
    simp
  · simp only [RowIndexValid, Check.bind_run, if_neg hc] at h
    cases hq : size p env with
    | none => simp [hq] at h
    | some res =>
      obtain ⟨n, e1⟩ := res
      have hquiet := onTable_quiet _ _ _ env n e1 hq
      simp only [hq] at h
      split_ifs at h <;>
        simp only [Check.bind_run, Check.pure_run, ThrowException_run, Option.some.injEq,
          Prod.mk.injEq] at h <;>
        obtain ⟨rfl, rfl⟩ := h <;> simp_all

theorem RowIndexesValid_disciplined (p : Option TableObj) (startIndex endIndex range : Int) :
    Disciplined (RowIndexesValid p startIndex endIndex range) := by
  intro env b env1 h
  simp only [RowIndexesValid, Check.bind_run] at h
  cases hq : size p env with
  | none => simp [hq] at h
  | some res =>
    obtain ⟨n, e1⟩ := res
    have hquiet := onTable_quiet _ _ _ env n e1 hq
    simp only [hq] at h
    split_ifs at h <;>
        simp only [Check.bind_run, Check.pure_run, ThrowException_run, Option.some.injEq,
          Prod.mk.injEq] at h <;>
        obtain ⟨rfl, rfl⟩ := h <;> simp_all

theorem TableIsValid_disciplined (T : NativeType) (p : Option TableObj) :
    Disciplined (TableIsValid T p) := by
  intro env b env1 h
  cases p with
  | none =>
    rw [TableIsValid_null] at h
    simp only [Option.some.injEq, Prod.mk.injEq] at h
    obtain ⟨rfl, rfl⟩ := h
    simp
  | some t =>
    cases hatt : t.attached <;> cases hT : SameType NativeType.Table T <;>
      simp [TableIsValid, hT, hatt] at h <;> obtain ⟨rfl, rfl⟩ := h <;> simp

theorem RowIsValid_disciplined (r : Option RowObj) : Disciplined (RowIsValid r) := by
  intro env b env1 h
  cases r with
  | none =>
    simp [RowIsValid, andAlso] at h
    obtain ⟨rfl, rfl⟩ := h
    simp
  | some x =>
    cases hatt : x.attached <;> simp [RowIsValid, andAlso, hatt] at h <;>
      obtain ⟨rfl, rfl⟩ := h <;> simp

theorem TypeValid_disciplined (type_Mixed : Int) (p : Option TableObj)
    (columnIndex rowIndex expectColType : Int) (allowMixed : Bool) :
    Disciplined (TypeValid type_Mixed p columnIndex rowIndex expectColType allowMixed) := by
  intro env b env1 h
  simp only [TypeValid, Check.bind_run] at h
  cases hq : get_column_type p (S columnIndex) env with
  | none => simp [hq] at h
  | some res =>
    obtain ⟨d, e1⟩ := res
    have hquiet := onTable_quiet _ _ _ env d e1 hq
    simp only [hq] at h
    cases allowMixed with
    | false =>
      simp only [Bool.false_eq_true, if_false] at h
      split_ifs at h <;>
        simp only [Check.bind_run, Check.pure_run, ThrowException_run, Option.some.injEq,
          Prod.mk.injEq] at h <;>
        obtain ⟨rfl, rfl⟩ := h <;> simp_all
    | true =>
      by_cases hd : d = type_Mixed
      · simp only [if_true, if_pos hd, Check.bind_run] at h
        cases hq2 : get_mixed_type p (S columnIndex) (S rowIndex) e1 with
        | none => simp [hq2] at h
        | some res2 =>
          obtain ⟨d2, e2⟩ := res2
          have hquiet2 := onTable_quiet _ _ _ e1 d2 e2 hq2
          simp only [hq2] at h
          split_ifs at h <;>
            simp only [Check.bind_run, Check.pure_run, ThrowException_run, Option.some.injEq,
              Prod.mk.injEq] at h <;>
            obtain ⟨rfl, rfl⟩ := h <;> simp_all
      · simp only [if_true, if_neg hd] at h
        split_ifs at h <;>
          simp only [Check.bind_run, Check.pure_run, ThrowException_run, Option.some.injEq,
            Prod.mk.injEq] at h <;>
          obtain ⟨rfl, rfl⟩ := h <;> simp_all

theorem TblRowIndexValid_eq (T : NativeType) (p : Option TableObj) (rowIndex : Int)
    (offset : Bool) :
    TblRowIndexValid T p rowIndex offset =
      if SameType NativeType.Table T = true then
        andAlso (TableIsValid NativeType.Table p) (RowIndexValid p rowIndex offset)
      else RowIndexValid p rowIndex offset := by
  funext env
  cases hT : SameType NativeType.Table T
  · simp [TblRowIndexValid, hT]
  · simp only [TblRowIndexValid, hT, if_true, andAlso, Check.bind_run]
    cases hrun : TableIsValid NativeType.Table p env with
    | none => simp
    | some res =>
      obtain ⟨b, e1⟩ := res
      cases b <;> simp

theorem TblColIndexValid_eq (T : NativeType) (p : Option TableObj) (columnIndex : Int) :
    TblColIndexValid T p columnIndex =
      if SameType NativeType.Table T = true then
        andAlso (TableIsValid NativeType.Table p) (ColIndexValid p columnIndex)
      else ColIndexValid p columnIndex := by
  funext env
  cases hT : SameType NativeType.Table T
  · simp [TblColIndexValid, hT]
  · simp only [TblColIndexValid, hT, if_true, andAlso, Check.bind_run]
    cases hrun : TableIsValid NativeType.Table p env with
    | none => simp
    | some res =>
      obtain ⟨b, e1⟩ := res
      cases b <;> simp

theorem TblRowIndexValid_disciplined (T : NativeType) (p : Option TableObj) (rowIndex : Int)
    (offset : Bool) : Disciplined (TblRowIndexValid T p rowIndex offset) := by
  rw [TblRowIndexValid_eq]
  split_ifs
  · exact Disciplined_andAlso _ _ (TableIsValid_disciplined _ _) (RowIndexValid_disciplined _ _ _)
  · exact RowIndexValid_disciplined _ _ _

theorem TblColIndexValid_disciplined (T : NativeType) (p : Option TableObj)
    (columnIndex : Int) : Disciplined (TblColIndexValid T p columnIndex) := by
  rw [TblColIndexValid_eq]
  split_ifs
  · exact Disciplined_andAlso _ _ (TableIsValid_disciplined _ _) (ColIndexValid_disciplined _ _)
  · exact ColIndexValid_disciplined _ _

theorem TblIndexInsertValid_disciplined (T : NativeType) (p : Option TableObj)
    (columnIndex rowIndex : Int) :
    Disciplined (TblIndexInsertValid T p columnIndex rowIndex) := by
  intro env b env1 h
  simp only [TblIndexInsertValid, Check.bind_run] at h
  cases hrun : TblColIndexValid T p columnIndex env with
  | none => simp [hrun] at h
  | some res =>
    obtain ⟨ok, e1⟩ := res
    have hd := TblColIndexValid_disciplined T p columnIndex env ok e1 hrun
    simp only [hrun] at h
    cases ok with
    | false =>
      simp only [Bool.not_false, if_true, Check.pure_run, Option.some.injEq,
        Prod.mk.injEq] at h
      obtain ⟨rfl, rfl⟩ := h
      exact hd
    | true =>
      have hd1 := hd.1 rfl
      simp only [Bool.not_true, Bool.false_eq_true, if_false, Check.bind_run,
        Check.pure_run] at h
      cases hq : size p e1 with
      | none => simp [hq] at h
      | some res2 =>
        obtain ⟨n, e2⟩ := res2
        have hquiet := onTable_quiet _ _ _ e1 n e2 hq
        simp only [hq] at h
        split_ifs at h
        · simp only [Check.bind_run] at h
          cases hq3 : size p e2 with
          | none => simp [hq3] at h
          | some res3 =>
            obtain ⟨n3, e3⟩ := res3
            have hquiet3 := onTable_quiet _ _ _ e2 n3 e3 hq3
            simp only [hq3, Check.bind_run, Check.pure_run, ThrowException_run,
              Option.some.injEq, Prod.mk.injEq] at h
            obtain ⟨rfl, rfl⟩ := h
            simp_all
        · simp only [Check.bind_run, Check.pure_run, Option.some.injEq, Prod.mk.injEq] at h
          obtain ⟨rfl, rfl⟩ := h
          simp_all

/-! ## Guarded type lookups -/

theorem guardedTrace_nil (t : TableObj) (col row : Int) : guardedTrace t col row [] := by
  simp [guardedTrace]

theorem guardedTrace_append (t : TableObj) (col row : Int) (a b : JNIEnv)
    (ha : guardedTrace t col row a) (hb : guardedTrace t col row b) :
    guardedTrace t col row (a ++ b) := by
  intro q hq
  rw [queried_append, List.mem_append] at hq
  rcases hq with h | h
  · exact ha q h
  · exact hb q h

theorem typeQueries_guarded (type_Mixed : Int) (t : TableObj) (col row declared : Int)
    (allowMixed : Bool) (hc0 : 0 ≤ col) (hc1 : col < (t.column_types.length : Int))
    (hrow : allowMixed = true → declared = type_Mixed → 0 ≤ row ∧ row < (t.rows : Int)) :
    guardedTrace t col row (typeQueries type_Mixed declared col.toNat row.toNat allowMixed) := by
  have hcn : ((col.toNat : Nat) : Int) = col := Int.toNat_of_nonneg hc0
  unfold typeQueries
  split_ifs with hm
  · obtain ⟨hr0, hr1⟩ := hrow hm.1 hm.2
    have hrn : ((row.toNat : Nat) : Int) = row := Int.toNat_of_nonneg hr0
    simp [guardedTrace, Query.guarded, hcn, hrn, hc0, hc1, hr0, hr1]
  · simp [guardedTrace, Query.guarded, hcn, hc0, hc1]

theorem andAlso_true_inv (a b : Check Bool) (env env1 : JNIEnv)
    (h : andAlso a b env = some (true, env1)) :
    ∃ e0, a env = some (true, e0) ∧ b e0 = some (true, env1) := by
  cases hrun : a env with
  | none => simp [andAlso, hrun] at h
  | some res =>
    obtain ⟨r, e0⟩ := res
    cases r with
    | false =>
      rw [andAlso_run_false _ _ _ _ hrun] at h
      simp at h
    | true =>
      rw [andAlso_run_true _ _ _ _ hrun] at h
      exact ⟨e0, rfl, h⟩

theorem GuardedRun_andAlso (t : TableObj) (col row : Int) (a b : Check Bool)
    (ha : GuardedRun t col row a)
    (hb : ∀ env e1, a env = some (true, e1) →
      ∃ r new, b e1 = some (r, e1 ++ new) ∧ guardedTrace t col row new) :
    GuardedRun t col row (andAlso a b) := by
  intro env
  obtain ⟨r, pre, hrun, hg⟩ := ha env
  cases r with
  | false => exact ⟨false, pre, andAlso_run_false _ _ _ _ hrun, hg⟩
  | true =>
    obtain ⟨r2, new, hrun2, hg2⟩ := hb env _ hrun
    refine ⟨r2, pre ++ new, ?_, guardedTrace_append _ _ _ _ _ hg hg2⟩
    rw [andAlso_run_true _ _ _ _ hrun, hrun2, List.append_assoc]

theorem GuardedRun_defined (t : TableObj) (col row : Int) (m : Check Bool)
    (h : GuardedRun t col row m) : Defined m := by
  intro env
  obtain ⟨b, new, hrun, _⟩ := h env
  exact ⟨b, _, hrun⟩

theorem TableIsValid_guarded (T : NativeType) (t u : TableObj) (col row : Int) :
    GuardedRun t col row (TableIsValid T (some u)) := by
  intro env
  cases hatt : u.attached <;> cases hT : SameType NativeType.Table T
  · exact ⟨true, [], by simp [TableIsValid, hT], guardedTrace_nil _ _ _⟩
  · exact ⟨false, [Event.native Query.is_attached, Event.thrown ExceptionKind.TableInvalid
      "Table is no longer valid to operate on." ""], by simp [TableIsValid, hT, hatt],
      by simp [guardedTrace, Query.guarded]⟩
  · exact ⟨true, [], by simp [TableIsValid, hT], guardedTrace_nil _ _ _⟩
  · exact ⟨true, [Event.native Query.is_attached], by simp [TableIsValid, hT, hatt],
      by simp [guardedTrace, Query.guarded]⟩

theorem ColIndexValid_guarded (t : TableObj) (col row columnIndex : Int)
    (hatt : t.attached = true) : GuardedRun t col row (ColIndexValid (some t) columnIndex) := by
  intro env
  by_cases hc0 : columnIndex < 0
  · exact ⟨false, _, ColIndexValid_negative _ _ _ hc0, by simp [guardedTrace, Query.guarded]⟩
  by_cases hc1 : (t.column_types.length : Int) ≤ columnIndex
  · exact ⟨false, _, ColIndexValid_large _ _ _ hatt hc1, by simp [guardedTrace, Query.guarded]⟩
  · exact ⟨true, _, ColIndexValid_inside _ _ _ hatt (by omega) (by omega),
      by simp [guardedTrace, Query.guarded]⟩

theorem ColIndexValid_true_inv (t : TableObj) (columnIndex : Int) (env env1 : JNIEnv)
    (hatt : t.attached = true) (h : ColIndexValid (some t) columnIndex env = some (true, env1)) :
    0 ≤ columnIndex ∧ columnIndex < (t.column_types.length : Int) := by
  by_cases hc0 : columnIndex < 0
  · rw [ColIndexValid_negative _ _ _ hc0] at h
    simp at h
  by_cases hc1 : (t.column_types.length : Int) ≤ columnIndex
  · rw [ColIndexValid_large _ _ _ hatt hc1] at h
    simp at h
  · omega

theorem RowIndexValid_guarded (t : TableObj) (col row rowIndex : Int) (offset : Bool)
    (hatt : t.attached = true) :
    GuardedRun t col row (RowIndexValid (some t) rowIndex offset) := by
  intro env
  by_cases hr0 : rowIndex < 0
  · exact ⟨false, _, RowIndexValid_negative _ _ _ _ hr0, by simp [guardedTrace, Query.guarded]⟩
  · simp only [RowIndexValid, Check.bind_run, if_neg hr0, size_run t env hatt]
    split_ifs with h1 h2 h2
    · exact ⟨false, [Event.native Query.size, Event.thrown ExceptionKind.IndexOutOfBounds
        "rowIndex > available rows." ""], by simp [h2], by simp [guardedTrace, Query.guarded]⟩
    · exact ⟨true, [Event.native Query.size], by simp [h2],
        by simp [guardedTrace, Query.guarded]⟩
    · exact ⟨false, [Event.native Query.size, Event.thrown ExceptionKind.IndexOutOfBounds
        "rowIndex > available rows." ""], by simp [h2], by simp [guardedTrace, Query.guarded]⟩
    · exact ⟨true, [Event.native Query.size], by simp [h2],
        by simp [guardedTrace, Query.guarded]⟩

theorem RowIndexValid_true_inv (t : TableObj) (rowIndex : Int) (env env1 : JNIEnv)
    (hatt : t.attached = true)
    (h : RowIndexValid (some t) rowIndex false env = some (true, env1)) :
    0 ≤ rowIndex ∧ rowIndex < (t.rows : Int) := by
  by_cases hr0 : rowIndex < 0
  · rw [RowIndexValid_negative _ _ _ _ hr0] at h
    simp at h
  by_cases hr1 : (t.rows : Int) ≤ rowIndex
  · rw [RowIndexValid_large _ _ _ hatt hr1] at h
    simp at h
  · omega

theorem TypeValid_guarded (type_Mixed : Int) (t : TableObj)
    (columnIndex rowIndex expectColType : Int) (allowMixed : Bool) (env : JNIEnv)
    (hatt : t.attached = true) (hwf : t.wf) (hc0 : 0 ≤ columnIndex)
    (hc1 : columnIndex < (t.column_types.length : Int))
    (hrow : allowMixed = true → 0 ≤ rowIndex ∧ rowIndex < (t.rows : Int)) :
    ∃ r new,
      TypeValid type_Mixed (some t) columnIndex rowIndex expectColType allowMixed env =
        some (r, env ++ new) ∧
      guardedTrace t columnIndex rowIndex new := by
  obtain ⟨declared, hdecl⟩ := getElem?_of_index t columnIndex hc0 hc1
  refine ⟨decide (resolvedType type_Mixed t declared columnIndex.toNat rowIndex.toNat
      allowMixed = expectColType),
    typeQueries type_Mixed declared columnIndex.toNat rowIndex.toNat allowMixed ++
      (if resolvedType type_Mixed t declared columnIndex.toNat rowIndex.toNat
          allowMixed = expectColType then []
        else [Event.thrown ExceptionKind.IllegalArgument "ColumnType invalid." ""]), ?_, ?_⟩
  · rw [TypeValid_run type_Mixed t columnIndex rowIndex expectColType declared allowMixed env
      hatt hwf hc0 hdecl (fun ha _ => hrow ha), List.append_assoc]
  · refine guardedTrace_append _ _ _ _ _
      (typeQueries_guarded type_Mixed t columnIndex rowIndex declared allowMixed hc0 hc1
        (fun ha _ => hrow ha)) ?_
    split_ifs <;> simp [guardedTrace]

theorem IndexValid_guarded (t : TableObj) (col row columnIndex rowIndex : Int)
    (hatt : t.attached = true) :
    GuardedRun t col row (IndexValid (some t) columnIndex rowIndex) :=
  GuardedRun_andAlso _ _ _ _ _ (ColIndexValid_guarded t col row columnIndex hatt)
    (fun _ e1 _ => RowIndexValid_guarded t col row rowIndex false hatt e1)

theorem IndexValid_true_inv (t : TableObj) (columnIndex rowIndex : Int) (env env1 : JNIEnv)
    (hatt : t.attached = true)
    (h : IndexValid (some t) columnIndex rowIndex env = some (true, env1)) :
    (0 ≤ columnIndex ∧ columnIndex < (t.column_types.length : Int)) ∧
      (0 ≤ rowIndex ∧ rowIndex < (t.rows : Int)) := by
  obtain ⟨e0, h1, h2⟩ := andAlso_true_inv _ _ _ _ h
  exact ⟨ColIndexValid_true_inv t columnIndex env e0 hatt h1,
    RowIndexValid_true_inv t rowIndex e0 env1 hatt h2⟩

theorem ColIndexAndTypeValid_guarded (type_Mixed : Int) (t : TableObj)
    (columnIndex expectColType : Int) (hatt : t.attached = true) (hwf : t.wf) :
    GuardedRun t columnIndex 0
      (ColIndexAndTypeValid type_Mixed (some t) columnIndex expectColType) := by
  refine GuardedRun_andAlso _ _ _ _ _ (ColIndexValid_guarded t columnIndex 0 columnIndex hatt) ?_
  intro env e1 h
  obtain ⟨hc0, hc1⟩ := ColIndexValid_true_inv t columnIndex env e1 hatt h
  exact TypeValid_guarded type_Mixed t columnIndex 0 expectColType false e1 hatt hwf hc0 hc1
    (by simp)

theorem IndexAndTypeValid_guarded (type_Mixed : Int) (t : TableObj)
    (columnIndex rowIndex expectColType : Int) (allowMixed : Bool)
    (hatt : t.attached = true) (hwf : t.wf) :
    GuardedRun t columnIndex rowIndex
      (IndexAndTypeValid type_Mixed (some t) columnIndex rowIndex expectColType allowMixed) := by
  refine GuardedRun_andAlso _ _ _ _ _
    (IndexValid_guarded t columnIndex rowIndex columnIndex rowIndex hatt) ?_
  intro env e1 h
  obtain ⟨⟨hc0, hc1⟩, hr⟩ := IndexValid_true_inv t columnIndex rowIndex env e1 hatt h
  exact TypeValid_guarded type_Mixed t columnIndex rowIndex expectColType allowMixed e1 hatt hwf
    hc0 hc1 (fun _ => hr)

theorem TblColIndexAndTypeValid_guarded (type_Mixed : Int) (T : NativeType) (t : TableObj)
    (columnIndex expectColType : Int) (hatt : t.attached = true) (hwf : t.wf) :
    GuardedRun t columnIndex 0
      (TblColIndexAndTypeValid type_Mixed T (some t) columnIndex expectColType) :=
  GuardedRun_andAlso _ _ _ _ _ (TableIsValid_guarded T t t columnIndex 0)
    (fun _ e1 _ => ColIndexAndTypeValid_guarded type_Mixed t columnIndex expectColType hatt hwf e1)

theorem TblIndexAndTypeValid_guarded (type_Mixed : Int) (T : NativeType) (t : TableObj)
    (columnIndex rowIndex expectColType : Int) (allowMixed : Bool)
    (hatt : t.attached = true) (hwf : t.wf) :
    GuardedRun t columnIndex rowIndex
      (TblIndexAndTypeValid type_Mixed T (some t) columnIndex rowIndex expectColType
        allowMixed) :=
  GuardedRun_andAlso _ _ _ _ _ (TableIsValid_guarded T t t columnIndex rowIndex)
    (fun _ e1 _ => IndexAndTypeValid_guarded type_Mixed t columnIndex rowIndex expectColType
      allowMixed hatt hwf e1)

theorem RowIsValid_attached (r : RowObj) (env : JNIEnv) (hr : r.attached = true) :
    RowIsValid (some r) env = some (true, env ++ [Event.native Query.row_is_attached]) := by
  simp [RowIsValid, andAlso, hr]

theorem RowIsValid_guarded (t : TableObj) (col row : Int) (r : Option RowObj) :
    GuardedRun t col row (RowIsValid r) := by
  intro env
  cases r with
  | none =>
    exact ⟨false, [Event.thrown ExceptionKind.RowInvalid
      "Row/Object is no longer valid to operate on. Was it deleted?" ""],
      by simp [RowIsValid, andAlso], by simp [guardedTrace]⟩
  | some x =>
    cases hx : x.attached
    · exact ⟨false, [Event.native Query.row_is_attached, Event.thrown ExceptionKind.RowInvalid
        "Row/Object is no longer valid to operate on. Was it deleted?" ""],
        by simp [RowIsValid, andAlso, hx], by simp [guardedTrace, Query.guarded]⟩
    · exact ⟨true, [Event.native Query.row_is_attached], RowIsValid_attached x env hx,
        by simp [guardedTrace, Query.guarded]⟩

theorem after_row_get_table (t : TableObj) (col row : Int) (r : RowObj) (f : Option TableObj → Check Bool)
    (hr : r.attached = true) (hrt : r.table = some t) (hf : GuardedRun t col row (f (some t)))
    (e1 : JNIEnv) :
    ∃ b new, (row_get_table (some r) >>= f) e1 = some (b, e1 ++ new) ∧
      guardedTrace t col row new := by
  obtain ⟨b, new, hrun, hg⟩ := hf (e1 ++ [Event.native Query.row_get_table])
  refine ⟨b, [Event.native Query.row_get_table] ++ new, ?_, ?_⟩
  · rw [Check.bind_run, row_get_table_run r e1 hr, hrt]
    simp only [hrun, List.append_assoc]
  · exact guardedTrace_append _ _ _ _ _ (by simp [guardedTrace, Query.guarded]) hg

theorem RowColIndexValid_guarded (t : TableObj) (col row : Int) (r : RowObj)
    (columnIndex : Int) (hatt : t.attached = true) (hr : r.attached = true)
    (hrt : r.table = some t) :
    GuardedRun t col row (RowColIndexValid (some r) columnIndex) :=
  GuardedRun_andAlso _ _ _ _ _ (RowIsValid_guarded t col row (some r))
    (fun _ e1 _ => after_row_get_table t col row r (fun tb => ColIndexValid tb columnIndex)
      hr hrt (ColIndexValid_guarded t col row columnIndex hatt) e1)

theorem RowColIndexAndTypeValid_guarded (type_Mixed : Int) (t : TableObj) (r : RowObj)
    (columnIndex expectColType : Int) (hatt : t.attached = true) (hwf : t.wf)
    (hr : r.attached = true) (hrt : r.table = some t) :
    GuardedRun t columnIndex 0
      (RowColIndexAndTypeValid type_Mixed (some r) columnIndex expectColType) :=
  GuardedRun_andAlso _ _ _ _ _ (RowIsValid_guarded t columnIndex 0 (some r))
    (fun _ e1 _ => after_row_get_table t columnIndex 0 r
      (fun tb => ColIndexAndTypeValid type_Mixed tb columnIndex expectColType)
      hr hrt (ColIndexAndTypeValid_guarded type_Mixed t columnIndex expectColType hatt hwf) e1)

theorem TblRowIndexValid_guarded (T : NativeType) (t : TableObj) (col row rowIndex : Int)
    (offset : Bool) (hatt : t.attached = true) :
    GuardedRun t col row (TblRowIndexValid T (some t) rowIndex offset) := by
  rw [TblRowIndexValid_eq]
  split_ifs
  · exact GuardedRun_andAlso _ _ _ _ _ (TableIsValid_guarded _ t t col row)
      (fun _ e1 _ => RowIndexValid_guarded t col row rowIndex offset hatt e1)
  · exact RowIndexValid_guarded t col row rowIndex offset hatt

theorem TblColIndexValid_guarded (T : NativeType) (t : TableObj) (col row columnIndex : Int)
    (hatt : t.attached = true) :
    GuardedRun t col row (TblColIndexValid T (some t) columnIndex) := by
  rw [TblColIndexValid_eq]
  split_ifs
  · exact GuardedRun_andAlso _ _ _ _ _ (TableIsValid_guarded _ t t col row)
      (fun _ e1 _ => ColIndexValid_guarded t col row columnIndex hatt e1)
  · exact ColIndexValid_guarded t col row columnIndex hatt

theorem TblColIndexValid_true_inv (T : NativeType) (t : TableObj) (columnIndex : Int)
    (env env1 : JNIEnv) (hatt : t.attached = true)
    (h : TblColIndexValid T (some t) columnIndex env = some (true, env1)) :
    0 ≤ columnIndex ∧ columnIndex < (t.column_types.length : Int) := by
  rw [TblColIndexValid_eq] at h
  split_ifs at h
  · obtain ⟨e0, _, h2⟩ := andAlso_true_inv _ _ _ _ h
    exact ColIndexValid_true_inv t columnIndex e0 env1 hatt h2
  · exact ColIndexValid_true_inv t columnIndex env env1 hatt h

theorem TblIndexValid_guarded (T : NativeType) (t : TableObj) (col row columnIndex rowIndex : Int)
    (hatt : t.attached = true) :
    GuardedRun t col row (TblIndexValid T (some t) columnIndex rowIndex) :=
  GuardedRun_andAlso _ _ _ _ _ (TableIsValid_guarded T t t col row)
    (fun _ e1 _ => IndexValid_guarded t col row columnIndex rowIndex hatt e1)

theorem TblIndexInsertValid_cases (T : NativeType) (t : TableObj) (col row columnIndex rowIndex : Int)
    (hatt : t.attached = true) (env : JNIEnv) :
    ∃ b new, TblIndexInsertValid T (some t) columnIndex rowIndex env = some (b, env ++ new) ∧
      guardedTrace t col row new ∧
      (b = true → 0 ≤ columnIndex ∧ columnIndex < (t.column_types.length : Int)) := by
  obtain ⟨ok, pre, hrun, hg⟩ := TblColIndexValid_guarded T t col row columnIndex hatt env
  cases ok with
  | false =>
    exact ⟨false, pre, by simp [TblIndexInsertValid, hrun], hg, by simp⟩
  | true =>
    have hin := TblColIndexValid_true_inv T t columnIndex env _ hatt hrun
    by_cases hb : int_greater_than rowIndex ((t.rows + 1) % SIZE_MOD) = true
    · refine ⟨false, pre ++ [Event.native Query.size, Event.native Query.size,
        Event.thrown ExceptionKind.IndexOutOfBounds
          ("rowIndex " ++ num_to_string rowIndex ++ " > available rows " ++
            num_to_string (t.rows : Nat) ++ ".") ""], ?_,
        guardedTrace_append _ _ _ _ _ hg (by simp [guardedTrace, Query.guarded]), by simp⟩
      simp [TblIndexInsertValid, hrun, size_run, hatt, hb]
    · refine ⟨true, pre ++ [Event.native Query.size], ?_,
        guardedTrace_append _ _ _ _ _ hg (by simp [guardedTrace, Query.guarded]), fun _ => hin⟩
      simp [TblIndexInsertValid, hrun, size_run, hatt, hb]

theorem TblIndexInsertValid_guarded (T : NativeType) (t : TableObj) (col row columnIndex rowIndex : Int)
    (hatt : t.attached = true) :
    GuardedRun t col row (TblIndexInsertValid T (some t) columnIndex rowIndex) := by
  intro env
  obtain ⟨b, new, h, hg, _⟩ := TblIndexInsertValid_cases T t col row columnIndex rowIndex hatt env
  exact ⟨b, new, h, hg⟩

theorem TblIndexAndTypeInsertValid_guarded (type_Mixed : Int) (T : NativeType) (t : TableObj)
    (columnIndex rowIndex expectColType : Int) (hatt : t.attached = true) (hwf : t.wf) :
    GuardedRun t columnIndex rowIndex
      (TblIndexAndTypeInsertValid type_Mixed T (some t) columnIndex rowIndex expectColType) := by
  refine GuardedRun_andAlso _ _ _ _ _
    (TblIndexInsertValid_guarded T t columnIndex rowIndex columnIndex rowIndex hatt) ?_
  intro env e1 h
  obtain ⟨b, new, h2, _, hin⟩ :=
    TblIndexInsertValid_cases T t columnIndex rowIndex columnIndex rowIndex hatt env
  rw [h] at h2
  simp only [Option.some.injEq, Prod.mk.injEq] at h2
  obtain ⟨hc0, hc1⟩ := hin h2.1.symm
  exact TypeValid_guarded type_Mixed t columnIndex rowIndex expectColType false e1 hatt hwf
    hc0 hc1 (by simp)

theorem row_get_table_quiet (p : Option RowObj) : Quiet (row_get_table p) := by
  intro env a env1 h
  unfold row_get_table at h
  cases p with
  | none => simp at h
  | some r =>
    cases hatt : r.attached <;> simp [hatt] at h
    obtain ⟨_, rfl⟩ := h
    simp

theorem RowIndexesValid_defined (t : TableObj) (startIndex endIndex range : Int)
    (hatt : t.attached = true) :
    Defined (RowIndexesValid (some t) startIndex endIndex range) := by
  intro env
  obtain ⟨b, env1, h, _⟩ := RowIndexesValid_run t startIndex endIndex range env hatt
  exact ⟨b, env1, h⟩

/-- C15: every validator of `util.hpp` keeps the discipline that a true result leaves the
raised exceptions as they were and a false result adds exactly one: `TableIsValid`,
`RowIsValid`, `RowIndexesValid`, `RowIndexValid`, `ColIndexValid`, `TypeValid` and the twelve
composites, for every handle (null and detached included) and all arguments.  And the
discipline is not empty: on an attached table whose sizes are `size_t` values, and an attached
row of it, every one of them returns (`TypeValid` on its own when the column index is inside
the table and, with `allowMixed`, the row index too). -/
theorem validators_disciplined (type_Mixed : Int) (T : NativeType) (p : Option TableObj)
    (r : Option RowObj) (t : TableObj) (x : RowObj)
    (columnIndex rowIndex startIndex endIndex range expectColType : Int)
    (offset allowMixed : Bool) :
    (Disciplined (TableIsValid T p) ∧
      Disciplined (RowIsValid r) ∧
      Disciplined (RowIndexesValid p startIndex endIndex range) ∧
      Disciplined (RowIndexValid p rowIndex offset) ∧
      Disciplined (ColIndexValid p columnIndex) ∧
      Disciplined (TypeValid type_Mixed p columnIndex rowIndex expectColType allowMixed) ∧
      Disciplined (TblRowIndexValid T p rowIndex offset) ∧
      Disciplined (TblColIndexValid T p columnIndex) ∧
      Disciplined (RowColIndexValid r columnIndex) ∧
      Disciplined (IndexValid p columnIndex rowIndex) ∧
      Disciplined (TblIndexValid T p columnIndex rowIndex) ∧
      Disciplined (TblIndexInsertValid T p columnIndex rowIndex) ∧
      Disciplined (ColIndexAndTypeValid type_Mixed p columnIndex expectColType) ∧
      Disciplined (TblColIndexAndTypeValid type_Mixed T p columnIndex expectColType) ∧
      Disciplined (RowColIndexAndTypeValid type_Mixed r columnIndex expectColType) ∧
      Disciplined (IndexAndTypeValid type_Mixed p columnIndex rowIndex expectColType
        allowMixed) ∧
      Disciplined (TblIndexAndTypeValid type_Mixed T p columnIndex rowIndex expectColType
        allowMixed) ∧
      Disciplined (TblIndexAndTypeInsertValid type_Mixed T p columnIndex rowIndex
        expectColType)) ∧
    (t.attached = true → t.wf → x.attached = true → x.table = some t →
      Defined (TableIsValid T (some t)) ∧
      Defined (RowIsValid (some x)) ∧
      Defined (RowIndexesValid (some t) startIndex endIndex range) ∧
      Defined (RowIndexValid (some t) rowIndex offset) ∧
      Defined (ColIndexValid (some t) columnIndex) ∧
      ((0 ≤ columnIndex ∧ columnIndex < (t.column_types.length : Int)) →
        (allowMixed = true → 0 ≤ rowIndex ∧ rowIndex < (t.rows : Int)) →
        Defined (TypeValid type_Mixed (some t) columnIndex rowIndex expectColType
          allowMixed)) ∧
      Defined (TblRowIndexValid T (some t) rowIndex offset) ∧
      Defined (TblColIndexValid T (some t) columnIndex) ∧
      Defined (RowColIndexValid (some x) columnIndex) ∧
      Defined (IndexValid (some t) columnIndex rowIndex) ∧
      Defined (TblIndexValid T (some t) columnIndex rowIndex) ∧
      Defined (TblIndexInsertValid T (some t) columnIndex rowIndex) ∧
      Defined (ColIndexAndTypeValid type_Mixed (some t) columnIndex expectColType) ∧
      Defined (TblColIndexAndTypeValid type_Mixed T (some t) columnIndex expectColType) ∧
      Defined (RowColIndexAndTypeValid type_Mixed (some x) columnIndex expectColType) ∧
      Defined (IndexAndTypeValid type_Mixed (some t) columnIndex rowIndex expectColType
        allowMixed) ∧
      Defined (TblIndexAndTypeValid type_Mixed T (some t) columnIndex rowIndex expectColType
        allowMixed) ∧
      Defined (TblIndexAndTypeInsertValid type_Mixed T (some t) columnIndex rowIndex
        expectColType)) := by
  have dT := TableIsValid_disciplined T p
  have dR := RowIsValid_disciplined r
  have dCol := ColIndexValid_disciplined p columnIndex
  have dRow := RowIndexValid_disciplined p rowIndex false
  have dIdx : Disciplined (IndexValid p columnIndex rowIndex) :=
    Disciplined_andAlso _ _ dCol dRow
  have dTy := fun row am =>
    TypeValid_disciplined type_Mixed p columnIndex row expectColType am
  have dColTy : Disciplined (ColIndexAndTypeValid type_Mixed p columnIndex expectColType) :=
    Disciplined_andAlso _ _ dCol (dTy 0 false)
  have dIdxTy : Disciplined (IndexAndTypeValid type_Mixed p columnIndex rowIndex expectColType
      allowMixed) := Disciplined_andAlso _ _ dIdx (dTy rowIndex allowMixed)
  have dIns := TblIndexInsertValid_disciplined T p columnIndex rowIndex
  refine ⟨⟨dT, dR, RowIndexesValid_disciplined _ _ _ _, RowIndexValid_disciplined _ _ _, dCol,
    dTy rowIndex allowMixed, TblRowIndexValid_disciplined _ _ _ _,
    TblColIndexValid_disciplined _ _ _, ?_, dIdx, Disciplined_andAlso _ _ dT dIdx, dIns, dColTy,
    Disciplined_andAlso _ _ dT dColTy, ?_, dIdxTy, Disciplined_andAlso _ _ dT dIdxTy,
    Disciplined_andAlso _ _ dIns (dTy rowIndex false)⟩, ?_⟩
  · exact Disciplined_andAlso _ _ dR
      (Disciplined_bind _ _ (row_get_table_quiet r) (fun tb => ColIndexValid_disciplined tb _))
  · exact Disciplined_andAlso _ _ dR
      (Disciplined_bind _ _ (row_get_table_quiet r)
        (fun tb => Disciplined_andAlso _ _ (ColIndexValid_disciplined tb _)
          (TypeValid_disciplined type_Mixed tb columnIndex 0 expectColType false)))
  · intro hatt hwf hx hxt
    refine ⟨GuardedRun_defined t 0 0 _ (TableIsValid_guarded T t t 0 0),
      GuardedRun_defined t 0 0 _ (RowIsValid_guarded t 0 0 (some x)),
      RowIndexesValid_defined t _ _ _ hatt,
      GuardedRun_defined t 0 0 _ (RowIndexValid_guarded t 0 0 rowIndex offset hatt),
      GuardedRun_defined t 0 0 _ (ColIndexValid_guarded t 0 0 columnIndex hatt),
      ?_,
      GuardedRun_defined t 0 0 _ (TblRowIndexValid_guarded T t 0 0 rowIndex offset hatt),
      GuardedRun_defined t 0 0 _ (TblColIndexValid_guarded T t 0 0 columnIndex hatt),
      GuardedRun_defined t 0 0 _ (RowColIndexValid_guarded t 0 0 x columnIndex hatt hx hxt),
      GuardedRun_defined t 0 0 _ (IndexValid_guarded t 0 0 columnIndex rowIndex hatt),
      GuardedRun_defined t 0 0 _ (TblIndexValid_guarded T t 0 0 columnIndex rowIndex hatt),
      GuardedRun_defined t 0 0 _ (TblIndexInsertValid_guarded T t 0 0 columnIndex rowIndex hatt),
      GuardedRun_defined t _ _ _
        (ColIndexAndTypeValid_guarded type_Mixed t columnIndex expectColType hatt hwf),
      GuardedRun_defined t _ _ _
        (TblColIndexAndTypeValid_guarded type_Mixed T t columnIndex expectColType hatt hwf),
      GuardedRun_defined t _ _ _
        (RowColIndexAndTypeValid_guarded type_Mixed t x columnIndex expectColType hatt hwf
          hx hxt),
      GuardedRun_defined t _ _ _
        (IndexAndTypeValid_guarded type_Mixed t columnIndex rowIndex expectColType allowMixed
          hatt hwf),
      GuardedRun_defined t _ _ _
        (TblIndexAndTypeValid_guarded type_Mixed T t columnIndex rowIndex expectColType
          allowMixed hatt hwf),
      GuardedRun_defined t _ _ _
        (TblIndexAndTypeInsertValid_guarded type_Mixed T t columnIndex rowIndex expectColType
          hatt hwf)⟩
    intro hc hrow env
    obtain ⟨b, new, h, _⟩ := TypeValid_guarded type_Mixed t columnIndex rowIndex expectColType
      allowMixed env hatt hwf hc.1 hc.2 hrow
    exact ⟨b, _, h⟩

/-- C16: on an attached table whose sizes are `size_t` values (and an attached row of it),
for every column index, row index and expected type, each of `ColIndexAndTypeValid`,
`IndexAndTypeValid`, `TblIndexAndTypeValid`, `TblColIndexAndTypeValid`,
`RowColIndexAndTypeValid` and `TblIndexAndTypeInsertValid` returns (no accessor is called
outside the table), and in its trace every column-type lookup is at the given column with
`0 <= col < column_count` and every mixed-type lookup is, in addition, at the given row with
`0 <= row < size`; this holds for a negative row passed to the insert variant as well. -/
theorem type_lookups_guarded (type_Mixed : Int) (T : NativeType) (t : TableObj) (x : RowObj)
    (columnIndex rowIndex expectColType : Int) (allowMixed : Bool)
    (hatt : t.attached = true) (hwf : t.wf) (hx : x.attached = true)
    (hxt : x.table = some t) :
    GuardedRun t columnIndex 0
      (ColIndexAndTypeValid type_Mixed (some t) columnIndex expectColType) ∧
    GuardedRun t columnIndex rowIndex
      (IndexAndTypeValid type_Mixed (some t) columnIndex rowIndex expectColType allowMixed) ∧
    GuardedRun t columnIndex rowIndex
      (TblIndexAndTypeValid type_Mixed T (some t) columnIndex rowIndex expectColType
        allowMixed) ∧
    GuardedRun t columnIndex 0
      (TblColIndexAndTypeValid type_Mixed T (some t) columnIndex expectColType) ∧
    GuardedRun t columnIndex 0
      (RowColIndexAndTypeValid type_Mixed (some x) columnIndex expectColType) ∧
    GuardedRun t columnIndex rowIndex
      (TblIndexAndTypeInsertValid type_Mixed T (some t) columnIndex rowIndex expectColType) :=
  ⟨ColIndexAndTypeValid_guarded type_Mixed t columnIndex expectColType hatt hwf,
    IndexAndTypeValid_guarded type_Mixed t columnIndex rowIndex expectColType allowMixed
      hatt hwf,
    TblIndexAndTypeValid_guarded type_Mixed T t columnIndex rowIndex expectColType allowMixed
      hatt hwf,
    TblColIndexAndTypeValid_guarded type_Mixed T t columnIndex expectColType hatt hwf,
    RowColIndexAndTypeValid_guarded type_Mixed t x columnIndex expectColType hatt hwf hx hxt,
    TblIndexAndTypeInsertValid_guarded type_Mixed T t columnIndex rowIndex expectColType
      hatt hwf⟩

/-- C16 on the sample table and its row, column 1 and the negative row `-1`: the insert
variant gets through its index check and looks up the type of column 1 only. -/
theorem type_lookups_guarded_witness :
    TblIndexAndTypeInsertValid 6 NativeType.Table (some sampleTable) 1 (-1) 6 [] =
      some (true, [Event.native Query.is_attached, Event.native Query.get_column_count,
        Event.native Query.size, Event.native (Query.get_column_type 1)]) ∧
    (GuardedRun sampleTable 1 0 (ColIndexAndTypeValid 6 (some sampleTable) 1 6) ∧
    GuardedRun sampleTable 1 (-1) (IndexAndTypeValid 6 (some sampleTable) 1 (-1) 6 true) ∧
    GuardedRun sampleTable 1 (-1)
      (TblIndexAndTypeValid 6 NativeType.Table (some sampleTable) 1 (-1) 6 true) ∧
    GuardedRun sampleTable 1 0
      (TblColIndexAndTypeValid 6 NativeType.Table (some sampleTable) 1 6) ∧
    GuardedRun sampleTable 1 0 (RowColIndexAndTypeValid 6 (some sampleRow) 1 6) ∧
    GuardedRun sampleTable 1 (-1)
      (TblIndexAndTypeInsertValid 6 NativeType.Table (some sampleTable) 1 (-1) 6)) :=
  ⟨by decide, type_lookups_guarded 6 NativeType.Table sampleTable sampleRow 1 (-1) 6 true rfl
    (by decide) rfl rfl⟩

end RealmJni
